import Mathlib

/-!
# OpenSM super object (`opensm/osm_opensm.c`)

A shallow embedding of `osm_opensm.c`: the routing-engine name/type mapping,
the routing-engine registry lookup, and the construct / init / bind / destroy
sequences of the `osm_opensm_t` super object.

Conventions of the embedding:

* a C string is the list of its bytes, the terminating NUL left out
  (`CString`); a nullable `const char *` is an `Option CString`;
* routines that are only declared in this file (the subsystems, the pluggable
  routing engines, the C library) are external: an `Env` gives, for every
  external call and every instance state, the value it returns and its effect
  on the instance; every external call is appended to a trace;
* the preprocessor conditionals `ENABLE_OSM_PERF_MGR` and `HAVE_LIBPTHREAD`
  are the two booleans of `Build`.
-/

namespace OpenSM

/-! ## C strings and the C library comparisons -/

/-- A C string: its bytes in order, without the terminating NUL. -/
abbrev CString := List Nat

/-- The bytes of a string literal of the source. -/
def lit (s : String) : CString := s.toList.map Char.toNat

/-- A list of bytes is the content of a C string when no byte is NUL. -/
def NoNul (s : CString) : Prop := ∀ b ∈ s, b ≠ 0

instance (s : CString) : Decidable (NoNul s) := by
  unfold NoNul; infer_instance

/-- C library `tolower` in the C locale, on a byte. -/
def tolower (c : Nat) : Nat := if 65 ≤ c ∧ c ≤ 90 then c + 32 else c

/-- C library `strcmp`: the difference of the first two bytes that differ,
the end of a string reading as the NUL byte; zero when there is none. -/
def strcmp : CString → CString → Int
  | [], [] => 0
  | [], b :: _ => 0 - (b : Int)
  | a :: _, [] => (a : Int) - 0
  | a :: as, b :: bs => if a = b then strcmp as bs else (a : Int) - (b : Int)

/-- C library `strcasecmp`: `strcmp` on the lower-cased bytes. -/
def strcasecmp : CString → CString → Int
  | [], [] => 0
  | [], b :: _ => 0 - (tolower b : Int)
  | a :: _, [] => (tolower a : Int) - 0
  | a :: as, b :: bs =>
    if tolower a = tolower b then strcasecmp as bs
    else (tolower a : Int) - (tolower b : Int)

/-- Two C strings are equal ignoring ASCII letter case. -/
def EqIgnoreCase (s t : CString) : Prop := s.map tolower = t.map tolower

instance (s t : CString) : Decidable (EqIgnoreCase s t) := by
  unfold EqIgnoreCase; infer_instance

/-! ## Routing-engine type: name ↔ enum -/

/-- Modelled from the spec: the enum `osm_routing_engine_type_t` is declared in
a header that is not part of the sources at hand.  Its enumerators are the case
labels of `osm_routing_engine_type_str` plus `OSM_ROUTING_ENGINE_TYPE_UNKNOWN`;
`OUT_OF_RANGE v` stands for an integer value `v` that is none of the
enumerators (a C enum object can hold one). -/
inductive osm_routing_engine_type_t where
  | OSM_ROUTING_ENGINE_TYPE_NONE
  | OSM_ROUTING_ENGINE_TYPE_MINHOP
  | OSM_ROUTING_ENGINE_TYPE_UPDN
  | OSM_ROUTING_ENGINE_TYPE_FILE
  | OSM_ROUTING_ENGINE_TYPE_FTREE
  | OSM_ROUTING_ENGINE_TYPE_LASH
  | OSM_ROUTING_ENGINE_TYPE_DOR
  | OSM_ROUTING_ENGINE_TYPE_UNKNOWN
  | OUT_OF_RANGE (v : Int)
  deriving DecidableEq, Repr

open osm_routing_engine_type_t

/-- The `osm_routing_engine_type_str` function of the source: enum to name. -/
def osm_routing_engine_type_str (type : osm_routing_engine_type_t) : CString :=
  match type with
  | OSM_ROUTING_ENGINE_TYPE_NONE => lit "none"
  | OSM_ROUTING_ENGINE_TYPE_MINHOP => lit "minhop"
  | OSM_ROUTING_ENGINE_TYPE_UPDN => lit "updn"
  | OSM_ROUTING_ENGINE_TYPE_FILE => lit "file"
  | OSM_ROUTING_ENGINE_TYPE_FTREE => lit "ftree"
  | OSM_ROUTING_ENGINE_TYPE_LASH => lit "lash"
  | OSM_ROUTING_ENGINE_TYPE_DOR => lit "dor"
  | _ => lit "unknown"

/-- The `osm_routing_engine_type` function of the source: name to enum. -/
def osm_routing_engine_type (str : Option CString) : osm_routing_engine_type_t :=
  match str with
  | none => OSM_ROUTING_ENGINE_TYPE_MINHOP
  | some str =>
    if strcasecmp str (lit "null") = 0 ∨ strcasecmp str (lit "minhop") = 0 then
      OSM_ROUTING_ENGINE_TYPE_MINHOP
    else if strcasecmp str (lit "none") = 0 then OSM_ROUTING_ENGINE_TYPE_NONE
    else if strcasecmp str (lit "updn") = 0 then OSM_ROUTING_ENGINE_TYPE_UPDN
    else if strcasecmp str (lit "file") = 0 then OSM_ROUTING_ENGINE_TYPE_FILE
    else if strcasecmp str (lit "ftree") = 0 then OSM_ROUTING_ENGINE_TYPE_FTREE
    else if strcasecmp str (lit "lash") = 0 then OSM_ROUTING_ENGINE_TYPE_LASH
    else if strcasecmp str (lit "dor") = 0 then OSM_ROUTING_ENGINE_TYPE_DOR
    else OSM_ROUTING_ENGINE_TYPE_UNKNOWN

/-! ## The instance, the external routines and the trace -/

/-- The two preprocessor conditionals of the file. -/
structure Build where
  ENABLE_OSM_PERF_MGR : Bool
  HAVE_LIBPTHREAD : Bool
  deriving DecidableEq, Repr

/-- Modelled from the spec: the status type `ib_api_status_t` is declared in a
header that is not part of the sources at hand.  The file names two of its
values; every other value is a subsystem-specific failure `IB_ERROR code`. -/
inductive ib_api_status_t where
  | IB_SUCCESS
  | IB_INSUFFICIENT_RESOURCES
  | IB_ERROR (code : Nat)
  deriving DecidableEq, Repr

open ib_api_status_t

/-- Modelled from the spec: the options `osm_subn_opt_t` are declared in a
header that is not part of the sources at hand; these are the members that
`osm_opensm_init` reads. -/
structure osm_subn_opt_t where
  daemon : Bool
  force_log_flush : Bool
  log_flags : Nat
  log_file : Option CString
  log_max_size : Nat
  accum_log_file : Bool
  single_thread : Bool
  transaction_timeout : Nat
  max_wire_smps : Nat
  event_plugin_name : Option CString
  routing_engine_name : Option CString
  node_name_map_name : Option CString
  deriving DecidableEq, Repr

/-- Modelled from the spec: `struct osm_routing_engine` is declared in a header
that is not part of the sources at hand; this file reads and writes its `name`,
`context` and `delete` members.  A pointer is `none` when NULL, and a function
pointer is identified by a number. -/
structure osm_routing_engine where
  name : Option CString
  context : Option Nat
  delete : Option Nat
  deriving DecidableEq, Repr

/-- Modelled from the spec: `osm_opensm_t` is declared in a header that is not
part of the sources at hand.  Kept are the members this file reads or writes
itself; the state of the owned subsystems, which only the external routines
interpret, is the number `subsystems`. -/
structure osm_opensm_t where
  log_daemon : Bool
  sm_mad_ctrl_h_bind : Option Nat
  p_vendor : Option Nat
  event_plugin : Option Nat
  routing_engine : osm_routing_engine
  routing_engine_used : osm_routing_engine_type_t
  node_name_map : Option Nat
  subsystems : Nat
  deriving DecidableEq, Repr

/-- The `osm_log` statements of the file, by place. -/
inductive LogSite where
  | setup_routing_engine_failed
  | setup_routing_engine_set_up
  | osm_ucast_null_setup_nothing_yet
  | init_version_at_log_level
  | init_version_sys
  | init_enter
  | init_forcing_single_thread
  | init_cannot_setup_routing_engine
  | init_exit
  | bind_enter
  | bind_exit
  deriving DecidableEq, Repr

/-- The routines defined elsewhere that this file calls. -/
inductive Routine where
  | osm_log
  | osm_ucast_updn_setup
  | osm_ucast_file_setup
  | osm_ucast_ftree_setup
  | osm_ucast_lash_setup
  | osm_subn_construct
  | osm_sm_construct
  | osm_sa_construct
  | osm_db_construct
  | osm_mad_pool_construct
  | osm_vl15_construct
  | osm_log_construct
  | osm_log_init_v2
  | cl_plock_init
  | pthread_mutex_init
  | pthread_cond_init
  | cl_event_init
  | cl_disp_init
  | osm_subn_init
  | osm_vendor_new
  | osm_mad_pool_init
  | osm_vl15_init
  | osm_db_init
  | osm_sm_init
  | osm_sa_init
  | osm_epi_construct
  | osm_perfmgr_init
  | open_node_name_map
  | osm_sm_bind
  | osm_sa_bind
  | osm_perfmgr_bind
  | osm_vendor_set_sm
  | osm_perfmgr_shutdown
  | osm_sa_shutdown
  | osm_sm_shutdown
  | osm_vl15_shutdown
  | cl_disp_shutdown
  | osm_sa_db_file_dump
  | routing_engine_delete
  | osm_sa_destroy
  | osm_sm_destroy
  | osm_perfmgr_destroy
  | osm_db_destroy
  | osm_vl15_destroy
  | osm_mad_pool_destroy
  | osm_vendor_delete
  | osm_subn_destroy
  | cl_disp_destroy
  | pthread_cond_destroy
  | pthread_mutex_destroy
  | cl_event_destroy
  | close_node_name_map
  | cl_plock_destroy
  | osm_log_destroy
  deriving DecidableEq, Repr

/-- An argument of a call that is a value: a flag, a number, a string, a
pointer (a function pointer too), the options, or the place of a log
statement. -/
inductive Arg where
  | flag (b : Bool)
  | num (n : Nat)
  | str (s : Option CString)
  | ptr (p : Option Nat)
  | opt (o : osm_subn_opt_t)
  | site (s : LogSite)
  deriving DecidableEq, Repr

/-- A call to an external routine: the routine and, in order, its arguments
that are values (pointers into the instance are left out).
`routing_engine_delete` is the call through the `delete` member of the
routing-engine descriptor; its first argument is that function pointer. -/
structure Call where
  routine : Routine
  args : List Arg
  deriving DecidableEq, Repr

/-- An observable action of the file: a call to an external routine, or the
write of the process-wide `osm_exit_flag`. -/
inductive Action where
  | call (c : Call)
  | set_osm_exit_flag
  deriving DecidableEq, Repr

/-- The behaviour of the external routines.  For a call made in instance state
`st`: `status c st` is the `ib_api_status_t` it returns, `rc c st` the `int` it
returns, `handle c st` the pointer it returns (whichever its C type has), and
`effect c st` the instance state it leaves. -/
structure Env where
  status : Call → osm_opensm_t → ib_api_status_t
  rc : Call → osm_opensm_t → Int
  handle : Call → osm_opensm_t → Option Nat
  effect : Call → osm_opensm_t → osm_opensm_t

/-- The program state: the instance, the process-wide `osm_exit_flag`, and the
trace of actions so far, oldest first. -/
structure World where
  osm : osm_opensm_t
  osm_exit_flag : Bool
  trace : List Action
  deriving DecidableEq, Repr

/-- A call to an external routine whose result is not used. -/
def invoke (E : Env) (c : Call) (w : World) : World :=
  { w with osm := E.effect c w.osm, trace := w.trace ++ [Action.call c] }

/-- A call to an external routine that returns an `ib_api_status_t`. -/
def invokeStatus (E : Env) (c : Call) (w : World) : ib_api_status_t × World :=
  (E.status c w.osm, invoke E c w)

/-- A call to an external routine that returns an `int`. -/
def invokeRc (E : Env) (c : Call) (w : World) : Int × World :=
  (E.rc c w.osm, invoke E c w)

/-- A call to an external routine that returns a pointer. -/
def invokeHandle (E : Env) (c : Call) (w : World) : Option Nat × World :=
  (E.handle c w.osm, invoke E c w)

/-- The assignment `p_osm->log.daemon = 1`. -/
def set_log_daemon (w : World) : World :=
  { w with osm := { w.osm with log_daemon := true } }

/-- The assignment `p_osm->p_vendor = vendor`. -/
def set_p_vendor (vendor : Option Nat) (w : World) : World :=
  { w with osm := { w.osm with p_vendor := vendor } }

/-- The assignment `p_osm->event_plugin = plugin`. -/
def set_event_plugin (plugin : Option Nat) (w : World) : World :=
  { w with osm := { w.osm with event_plugin := plugin } }

/-- The assignment `p_osm->routing_engine_used = type`. -/
def set_routing_engine_used (type : osm_routing_engine_type_t) (w : World) : World :=
  { w with osm := { w.osm with routing_engine_used := type } }

/-- The assignment `p_osm->node_name_map = map`. -/
def set_node_name_map (map : Option Nat) (w : World) : World :=
  { w with osm := { w.osm with node_name_map := map } }

/-- The assignment `osm_exit_flag = TRUE`, recorded in the trace. -/
def set_osm_exit_flag (w : World) : World :=
  { w with osm_exit_flag := true, trace := w.trace ++ [Action.set_osm_exit_flag] }

/-- A call of `osm_log`: an output, recorded in the trace. -/
def osm_log (site : LogSite) (w : World) : World :=
  { w with trace := w.trace ++ [Action.call ⟨Routine.osm_log, [Arg.site site]⟩] }

/-! ## The routing-engine registry -/

/-- The setup routines the registry points to: one defined in the file, four
external. -/
inductive SetupFn where
  | osm_ucast_null_setup
  | osm_ucast_updn_setup
  | osm_ucast_file_setup
  | osm_ucast_ftree_setup
  | osm_ucast_lash_setup
  deriving DecidableEq, Repr

/-- The `struct routing_engine_module` of the source. -/
structure routing_engine_module where
  name : CString
  setup : SetupFn
  deriving DecidableEq, Repr

/-- The `routing_modules` table of the source.  The closing `NULL` entry of the
array is the end of the list. -/
def routing_modules : List routing_engine_module :=
  [ ⟨lit "null", SetupFn.osm_ucast_null_setup⟩,
    ⟨lit "minhop", SetupFn.osm_ucast_null_setup⟩,
    ⟨lit "updn", SetupFn.osm_ucast_updn_setup⟩,
    ⟨lit "file", SetupFn.osm_ucast_file_setup⟩,
    ⟨lit "ftree", SetupFn.osm_ucast_ftree_setup⟩,
    ⟨lit "lash", SetupFn.osm_ucast_lash_setup⟩,
    ⟨lit "dor", SetupFn.osm_ucast_null_setup⟩ ]

/-- The `osm_ucast_null_setup` function of the source. -/
def osm_ucast_null_setup (w : World) : Int × World :=
  (0, osm_log LogSite.osm_ucast_null_setup_nothing_yet w)

/-- The call `r->setup(p_osm)` through the function pointer of a registry
entry. -/
def call_setup (E : Env) (f : SetupFn) (w : World) : Int × World :=
  match f with
  | SetupFn.osm_ucast_null_setup => osm_ucast_null_setup w
  | SetupFn.osm_ucast_updn_setup => invokeRc E ⟨Routine.osm_ucast_updn_setup, []⟩ w
  | SetupFn.osm_ucast_file_setup => invokeRc E ⟨Routine.osm_ucast_file_setup, []⟩ w
  | SetupFn.osm_ucast_ftree_setup => invokeRc E ⟨Routine.osm_ucast_ftree_setup, []⟩ w
  | SetupFn.osm_ucast_lash_setup => invokeRc E ⟨Routine.osm_ucast_lash_setup, []⟩ w

/-- The assignment `p_osm->routing_engine.name = name`. -/
def set_routing_engine_name (name : CString) (w : World) : World :=
  { w with osm := { w.osm with routing_engine := { w.osm.routing_engine with name := some name } } }

/-- The loop of `setup_routing_engine`, from entry `r` on: `rs` is the rest of
the table. -/
def setup_routing_engine_from (E : Env) (name : CString) :
    List routing_engine_module → World → Int × World
  | [], w => (-1, w)
  | r :: rs, w =>
    if r.name = [] then (-1, w)
    else if strcmp r.name name = 0 then
      let w1 := set_routing_engine_name r.name w
      let (rc, w2) := call_setup E r.setup w1
      if rc ≠ 0 then
        (-2, osm_log LogSite.setup_routing_engine_failed w2)
      else
        (0, osm_log LogSite.setup_routing_engine_set_up w2)
    else setup_routing_engine_from E name rs w

/-- The `setup_routing_engine` function of the source. -/
def setup_routing_engine (E : Env) (w : World) (name : CString) : Int × World :=
  setup_routing_engine_from E name routing_modules w

/-! ## Construction and teardown -/

/-- The instance after `memset(p_osm, 0, sizeof(*p_osm))`: every pointer NULL,
every number zero (the zero enum value is the first enumerator). -/
def zeroed : osm_opensm_t :=
  { log_daemon := false
    sm_mad_ctrl_h_bind := none
    p_vendor := none
    event_plugin := none
    routing_engine := { name := none, context := none, delete := none }
    routing_engine_used := OSM_ROUTING_ENGINE_TYPE_NONE
    node_name_map := none
    subsystems := 0 }

/-- The `osm_opensm_construct` function of the source. -/
def osm_opensm_construct (E : Env) (w : World) : World :=
  let w : World := { w with osm := zeroed }
  let w := invoke E ⟨Routine.osm_subn_construct, []⟩ w
  let w := invoke E ⟨Routine.osm_sm_construct, []⟩ w
  let w := invoke E ⟨Routine.osm_sa_construct, []⟩ w
  let w := invoke E ⟨Routine.osm_db_construct, []⟩ w
  let w := invoke E ⟨Routine.osm_mad_pool_construct, []⟩ w
  let w := invoke E ⟨Routine.osm_vl15_construct, []⟩ w
  invoke E ⟨Routine.osm_log_construct, []⟩ w

/-- The first half of `osm_opensm_destroy`: the exit flag, the shutdowns and
the dump of the SA database. -/
def osm_opensm_destroy_shutdown (B : Build) (E : Env) (w : World) : World :=
  let w := set_osm_exit_flag w
  let w := match w.osm.sm_mad_ctrl_h_bind with
    | some h => invoke E ⟨Routine.osm_vendor_set_sm, [Arg.ptr (some h), Arg.flag false]⟩ w
    | none => w
  let w := if B.ENABLE_OSM_PERF_MGR then invoke E ⟨Routine.osm_perfmgr_shutdown, []⟩ w else w
  let w := invoke E ⟨Routine.osm_sa_shutdown, []⟩ w
  let w := invoke E ⟨Routine.osm_sm_shutdown, []⟩ w
  let w := invoke E ⟨Routine.osm_vl15_shutdown, []⟩ w
  let w := invoke E ⟨Routine.cl_disp_shutdown, []⟩ w
  invoke E ⟨Routine.osm_sa_db_file_dump, []⟩ w

/-- The second half of `osm_opensm_destroy`, which the source introduces as
"do the destruction in reverse order as init". -/
def osm_opensm_destroy_objects (B : Build) (E : Env) (w : World) : World :=
  let w := match w.osm.routing_engine.delete with
    | some f =>
      invoke E ⟨Routine.routing_engine_delete, [Arg.ptr (some f), Arg.ptr w.osm.routing_engine.context]⟩ w
    | none => w
  let w := invoke E ⟨Routine.osm_sa_destroy, []⟩ w
  let w := invoke E ⟨Routine.osm_sm_destroy, []⟩ w
  let w := if B.ENABLE_OSM_PERF_MGR then invoke E ⟨Routine.osm_perfmgr_destroy, []⟩ w else w
  let w := invoke E ⟨Routine.osm_db_destroy, []⟩ w
  let w := invoke E ⟨Routine.osm_vl15_destroy, []⟩ w
  let w := invoke E ⟨Routine.osm_mad_pool_destroy, []⟩ w
  let w := invoke E ⟨Routine.osm_vendor_delete, []⟩ w
  let w := invoke E ⟨Routine.osm_subn_destroy, []⟩ w
  let w := invoke E ⟨Routine.cl_disp_destroy, []⟩ w
  let w :=
    if B.HAVE_LIBPTHREAD then
      invoke E ⟨Routine.pthread_mutex_destroy, []⟩ (invoke E ⟨Routine.pthread_cond_destroy, []⟩ w)
    else invoke E ⟨Routine.cl_event_destroy, []⟩ w
  let w := invoke E ⟨Routine.close_node_name_map, [Arg.ptr w.osm.node_name_map]⟩ w
  let w := invoke E ⟨Routine.cl_plock_destroy, []⟩ w
  invoke E ⟨Routine.osm_log_destroy, []⟩ w

/-- The `osm_opensm_destroy` function of the source. -/
def osm_opensm_destroy (B : Build) (E : Env) (w : World) : World :=
  osm_opensm_destroy_objects B E (osm_opensm_destroy_shutdown B E w)

/-! ## Initialization -/

/-- The `Exit:` label of `osm_opensm_init`. -/
def osm_opensm_init_Exit (status : ib_api_status_t) (w : World) : ib_api_status_t × World :=
  (status, osm_log LogSite.init_exit w)

/-- The part of `osm_opensm_init` after the performance manager block: routing engine
selection and the node name map.  `status` is the local variable. -/
def osm_opensm_init_routing (E : Env) (p_opt : osm_subn_opt_t) (status : ib_api_status_t)
    (w : World) : ib_api_status_t × World :=
  let w :=
    match p_opt.routing_engine_name with
    | some name =>
      let (rc, w1) := setup_routing_engine E w name
      if rc ≠ 0 then osm_log LogSite.init_cannot_setup_routing_engine w1 else w1
    | none => w
  let w := set_routing_engine_used OSM_ROUTING_ENGINE_TYPE_NONE w
  let (map, w) := invokeHandle E ⟨Routine.open_node_name_map, [Arg.str p_opt.node_name_map_name]⟩ w
  let w := set_node_name_map map w
  osm_opensm_init_Exit status w

/-- The part of `osm_opensm_init` from the event plugin on.  `status` is the
local variable. -/
def osm_opensm_init_plugin (B : Build) (E : Env) (p_opt : osm_subn_opt_t)
    (status : ib_api_status_t) (w : World) : ib_api_status_t × World :=
  let (plugin, w) := invokeHandle E ⟨Routine.osm_epi_construct, [Arg.str p_opt.event_plugin_name]⟩ w
  let w := set_event_plugin plugin w
  if B.ENABLE_OSM_PERF_MGR then
    let (status, w) :=
      invokeStatus E ⟨Routine.osm_perfmgr_init, [Arg.opt p_opt, Arg.ptr w.osm.event_plugin]⟩ w
    if status ≠ IB_SUCCESS then osm_opensm_init_Exit status w
    else osm_opensm_init_routing E p_opt status w
  else osm_opensm_init_routing E p_opt status w

/-- The part of `osm_opensm_init` from the dispatcher to the SA. -/
def osm_opensm_init_disp (B : Build) (E : Env) (p_opt : osm_subn_opt_t) (w : World) :
    ib_api_status_t × World :=
  let (status, w) :=
    if p_opt.single_thread then
      invokeStatus E ⟨Routine.cl_disp_init, [Arg.num 1, Arg.str (some (lit "opensm"))]⟩
        (osm_log LogSite.init_forcing_single_thread w)
    else
      invokeStatus E ⟨Routine.cl_disp_init, [Arg.num 0, Arg.str (some (lit "opensm"))]⟩ w
  if status ≠ IB_SUCCESS then osm_opensm_init_Exit status w else
  let (status, w) := invokeStatus E ⟨Routine.osm_subn_init, [Arg.opt p_opt]⟩ w
  if status ≠ IB_SUCCESS then osm_opensm_init_Exit status w else
  let (vendor, w) := invokeHandle E ⟨Routine.osm_vendor_new, [Arg.num p_opt.transaction_timeout]⟩ w
  let w := set_p_vendor vendor w
  if w.osm.p_vendor = none then osm_opensm_init_Exit IB_INSUFFICIENT_RESOURCES w else
  let (status, w) := invokeStatus E ⟨Routine.osm_mad_pool_init, []⟩ w
  if status ≠ IB_SUCCESS then osm_opensm_init_Exit status w else
  let (status, w) := invokeStatus E ⟨Routine.osm_vl15_init, [Arg.num p_opt.max_wire_smps]⟩ w
  if status ≠ IB_SUCCESS then osm_opensm_init_Exit status w else
  let (status, w) := invokeStatus E ⟨Routine.osm_db_init, []⟩ w
  if status ≠ IB_SUCCESS then osm_opensm_init_Exit status w else
  let (status, w) := invokeStatus E ⟨Routine.osm_sm_init, []⟩ w
  if status ≠ IB_SUCCESS then osm_opensm_init_Exit status w else
  let (status, w) := invokeStatus E ⟨Routine.osm_sa_init, []⟩ w
  if status ≠ IB_SUCCESS then osm_opensm_init_Exit status w else
  osm_opensm_init_plugin B E p_opt status w

/-- The `osm_opensm_init` function of the source. -/
def osm_opensm_init (B : Build) (E : Env) (w : World) (p_opt : osm_subn_opt_t) :
    ib_api_status_t × World :=
  let w := osm_opensm_construct E w
  let w := if p_opt.daemon then set_log_daemon w else w
  let (status, w) :=
    invokeStatus E
      ⟨Routine.osm_log_init_v2,
        [Arg.flag p_opt.force_log_flush, Arg.num p_opt.log_flags, Arg.str p_opt.log_file,
          Arg.num p_opt.log_max_size, Arg.flag p_opt.accum_log_file]⟩ w
  if status ≠ IB_SUCCESS then (status, w) else
  let w := osm_log LogSite.init_version_at_log_level w
  let w := osm_log LogSite.init_version_sys w
  let w := osm_log LogSite.init_enter w
  let (status, w) := invokeStatus E ⟨Routine.cl_plock_init, []⟩ w
  if status ≠ IB_SUCCESS then osm_opensm_init_Exit status w else
  if B.HAVE_LIBPTHREAD then
    let w := invoke E ⟨Routine.pthread_mutex_init, [Arg.ptr none]⟩ w
    let w := invoke E ⟨Routine.pthread_cond_init, [Arg.ptr none]⟩ w
    osm_opensm_init_disp B E p_opt w
  else
    let (status, w) := invokeStatus E ⟨Routine.cl_event_init, [Arg.flag false]⟩ w
    if status ≠ IB_SUCCESS then osm_opensm_init_Exit status w
    else osm_opensm_init_disp B E p_opt w

/-! ## Binding -/

/-- The `Exit:` label of `osm_opensm_bind`. -/
def osm_opensm_bind_Exit (status : ib_api_status_t) (w : World) : ib_api_status_t × World :=
  (status, osm_log LogSite.bind_exit w)

/-- The `osm_opensm_bind` function of the source. -/
def osm_opensm_bind (B : Build) (E : Env) (w : World) (guid : Nat) : ib_api_status_t × World :=
  let w := osm_log LogSite.bind_enter w
  let (status, w) := invokeStatus E ⟨Routine.osm_sm_bind, [Arg.num guid]⟩ w
  if status ≠ IB_SUCCESS then osm_opensm_bind_Exit status w else
  let (status, w) := invokeStatus E ⟨Routine.osm_sa_bind, [Arg.num guid]⟩ w
  if status ≠ IB_SUCCESS then osm_opensm_bind_Exit status w else
  if B.ENABLE_OSM_PERF_MGR then
    let (status, w) := invokeStatus E ⟨Routine.osm_perfmgr_bind, [Arg.num guid]⟩ w
    if status ≠ IB_SUCCESS then osm_opensm_bind_Exit status w
    else osm_opensm_bind_Exit status w
  else osm_opensm_bind_Exit status w

/-! ## Notions used to state the claims -/

/-- An action is the invocation of a setup routine of the registry: a call of
one of the four external ones, or the log statement that is the whole body of
`osm_ucast_null_setup`. -/
def isSetupInvocation (a : Action) : Bool :=
  match a with
  | Action.call c =>
    c.routine = Routine.osm_ucast_updn_setup || c.routine = Routine.osm_ucast_file_setup ||
    c.routine = Routine.osm_ucast_ftree_setup || c.routine = Routine.osm_ucast_lash_setup ||
    c = ⟨Routine.osm_log, [Arg.site LogSite.osm_ucast_null_setup_nothing_yet]⟩
  | Action.set_osm_exit_flag => false

/-- The routine an action invokes; `none` for the write of the exit flag. -/
def Action.routine (a : Action) : Option Routine :=
  match a with
  | Action.call c => some c.routine
  | Action.set_osm_exit_flag => none

/-- The destroy routines of teardown, the release of the node name map counted
among them. -/
def destroyRoutines : List Routine :=
  [Routine.osm_sa_destroy, Routine.osm_sm_destroy, Routine.osm_perfmgr_destroy,
    Routine.osm_db_destroy, Routine.osm_vl15_destroy, Routine.osm_mad_pool_destroy,
    Routine.osm_vendor_delete, Routine.osm_subn_destroy, Routine.cl_disp_destroy,
    Routine.pthread_cond_destroy, Routine.pthread_mutex_destroy, Routine.cl_event_destroy,
    Routine.close_node_name_map, Routine.cl_plock_destroy, Routine.osm_log_destroy]

/-- An instance whose routing-engine descriptor is set: name "updn", context 5,
teardown callback 9. -/
def engineWorld : World :=
  { osm := { zeroed with
      routing_engine := { name := some (lit "updn"), context := some 5, delete := some 9 } }
    osm_exit_flag := false
    trace := [] }

/-- The actions a run added to the trace: those of `after` beyond `before`. -/
def newActions (before after : World) : List Action :=
  after.trace.drop before.trace.length

/-- An environment in which every external routine succeeds, returns a
non-null pointer, and leaves the instance as it is. -/
def quietEnv : Env :=
  { status := fun _ _ => IB_SUCCESS
    rc := fun _ _ => 0
    handle := fun _ _ => some 1
    effect := fun _ st => st }

/-- The quiet environment, except that every external setup routine returns 1. -/
def failingSetupEnv : Env :=
  { status := fun _ _ => IB_SUCCESS
    rc := fun _ _ => 1
    handle := fun _ _ => some 1
    effect := fun _ st => st }

/-- The quiet environment, except that `osm_vendor_new` and every other
pointer-returning routine returns NULL. -/
def noVendorEnv : Env :=
  { status := fun _ _ => IB_SUCCESS
    rc := fun _ _ => 0
    handle := fun _ _ => none
    effect := fun _ st => st }

/-- The quiet environment, except that `pthread_cond_init` returns the error
number 12 (out of memory). -/
def condInitFailEnv : Env :=
  { status := fun _ _ => IB_SUCCESS
    rc := fun c _ => if c.routine = Routine.pthread_cond_init then 12 else 0
    handle := fun _ _ => some 1
    effect := fun _ st => st }

/-- The quiet environment, except that `osm_sa_bind` returns `IB_ERROR 3`. -/
def saBindFailEnv : Env :=
  { status := fun c _ => if c.routine = Routine.osm_sa_bind then IB_ERROR 3 else IB_SUCCESS
    rc := fun _ _ => 0
    handle := fun _ _ => some 1
    effect := fun _ st => st }

/-- A zeroed instance, the exit flag clear, nothing done yet. -/
def freshWorld : World :=
  { osm := zeroed, osm_exit_flag := false, trace := [] }

/-- The external routine `r` returns `IB_SUCCESS` whatever its arguments and
the instance state. -/
def Succeeds (E : Env) (r : Routine) : Prop :=
  ∀ args st, E.status ⟨r, args⟩ st = IB_SUCCESS

/-- The external routine `r` returns the status `s` whatever its arguments and
the instance state. -/
def FailsWith (E : Env) (r : Routine) (s : ib_api_status_t) : Prop :=
  ∀ args st, E.status ⟨r, args⟩ st = s

/-- Step `k` of initialization, in the numbering of the spec, succeeds: 1 log,
2 synchronization primitives, 3 dispatcher, 4 subnet model, 5 transport handle,
6 packet pool, 7 outbound queue, 8 persistent store, 9 SM, 10 SA, and 12 the
performance monitor where it is compiled in.  The other steps (11, 13, 14)
have no failure that initialization looks at. -/
def StepSucceeds (B : Build) (E : Env) : Nat → Prop
  | 1 => Succeeds E Routine.osm_log_init_v2
  | 2 => Succeeds E Routine.cl_plock_init ∧
      (B.HAVE_LIBPTHREAD = false → Succeeds E Routine.cl_event_init)
  | 3 => Succeeds E Routine.cl_disp_init
  | 4 => Succeeds E Routine.osm_subn_init
  | 5 => ∀ args st, E.handle ⟨Routine.osm_vendor_new, args⟩ st ≠ none
  | 6 => Succeeds E Routine.osm_mad_pool_init
  | 7 => Succeeds E Routine.osm_vl15_init
  | 8 => Succeeds E Routine.osm_db_init
  | 9 => Succeeds E Routine.osm_sm_init
  | 10 => Succeeds E Routine.osm_sa_init
  | 12 => B.ENABLE_OSM_PERF_MGR = true → Succeeds E Routine.osm_perfmgr_init
  | _ => True

/-- A failure in mandatory step `k` (1 to 10) that `osm_opensm_init` checks, with
status `s`.  In step 2 these are the failure of the lock and, without pthreads,
of the event after the lock succeeded; the results of `pthread_mutex_init` and
`pthread_cond_init` are not checked by the code and are not covered here.  In
step 5 it is `osm_vendor_new` returning no handle (it has no status). -/
def CheckedFailure (B : Build) (E : Env) (s : ib_api_status_t) : Nat → Prop
  | 1 => FailsWith E Routine.osm_log_init_v2 s
  | 2 => FailsWith E Routine.cl_plock_init s ∨
      (B.HAVE_LIBPTHREAD = false ∧ Succeeds E Routine.cl_plock_init ∧
        FailsWith E Routine.cl_event_init s)
  | 3 => FailsWith E Routine.cl_disp_init s
  | 4 => FailsWith E Routine.osm_subn_init s
  | 5 => ∀ args st, E.handle ⟨Routine.osm_vendor_new, args⟩ st = none
  | 6 => FailsWith E Routine.osm_mad_pool_init s
  | 7 => FailsWith E Routine.osm_vl15_init s
  | 8 => FailsWith E Routine.osm_db_init s
  | 9 => FailsWith E Routine.osm_sm_init s
  | 10 => FailsWith E Routine.osm_sa_init s
  | _ => False

/-- The step of initialization, in the numbering of the spec, that an action
belongs to; `none` for the constructors and the log statements (the log
statement that is the body of `osm_ucast_null_setup` belongs to step 13). -/
def stepOf (a : Action) : Option Nat :=
  match a with
  | Action.set_osm_exit_flag => none
  | Action.call c =>
    match c.routine with
    | Routine.osm_log_init_v2 => some 1
    | Routine.cl_plock_init => some 2
    | Routine.pthread_mutex_init => some 2
    | Routine.pthread_cond_init => some 2
    | Routine.cl_event_init => some 2
    | Routine.cl_disp_init => some 3
    | Routine.osm_subn_init => some 4
    | Routine.osm_vendor_new => some 5
    | Routine.osm_mad_pool_init => some 6
    | Routine.osm_vl15_init => some 7
    | Routine.osm_db_init => some 8
    | Routine.osm_sm_init => some 9
    | Routine.osm_sa_init => some 10
    | Routine.osm_epi_construct => some 11
    | Routine.osm_perfmgr_init => some 12
    | Routine.osm_ucast_updn_setup => some 13
    | Routine.osm_ucast_file_setup => some 13
    | Routine.osm_ucast_ftree_setup => some 13
    | Routine.osm_ucast_lash_setup => some 13
    | Routine.open_node_name_map => some 14
    | Routine.osm_log =>
      if c.args = [Arg.site LogSite.osm_ucast_null_setup_nothing_yet] then some 13 else none
    | _ => none

/-- The initialization steps of the actions a run added to the trace, in the
order of the actions. -/
def stepsRun (before after : World) : List Nat :=
  (newActions before after).filterMap stepOf

/-- No external routine changes the routing-engine descriptor of the instance. -/
def PreservesRoutingEngine (E : Env) : Prop :=
  ∀ c st, (E.effect c st).routing_engine = st.routing_engine

/-- Options with everything off and the given routing-engine name. -/
def optionsWithEngine (name : Option CString) : osm_subn_opt_t :=
  { daemon := false
    force_log_flush := false
    log_flags := 0
    log_file := none
    log_max_size := 0
    accum_log_file := false
    single_thread := false
    transaction_timeout := 0
    max_wire_smps := 0
    event_plugin_name := none
    routing_engine_name := name
    node_name_map_name := none }

/-- What `setup_routing_engine` does once the loop is at the entry `m` whose
name matches. -/
def setup_routing_engine_hit (E : Env) (m : routing_engine_module) (w : World) : Int × World :=
  if (call_setup E m.setup (set_routing_engine_name m.name w)).1 ≠ 0 then
    (-2, osm_log LogSite.setup_routing_engine_failed
      (call_setup E m.setup (set_routing_engine_name m.name w)).2)
  else
    (0, osm_log LogSite.setup_routing_engine_set_up
      (call_setup E m.setup (set_routing_engine_name m.name w)).2)

/-- The routines of the first half of teardown, in order; `bound` says whether
the SM had a bind handle. -/
def shutdownOrder (B : Build) (bound : Bool) : List (Option Routine) :=
  [none] ++ (if bound then [some Routine.osm_vendor_set_sm] else []) ++
  (if B.ENABLE_OSM_PERF_MGR then [some Routine.osm_perfmgr_shutdown] else []) ++
  [some Routine.osm_sa_shutdown, some Routine.osm_sm_shutdown, some Routine.osm_vl15_shutdown,
    some Routine.cl_disp_shutdown, some Routine.osm_sa_db_file_dump]

/-- The routines of the second half of teardown, in order; `deleted` says
whether the descriptor had a teardown callback. -/
def objectsOrder (B : Build) (deleted : Bool) : List (Option Routine) :=
  (if deleted then [some Routine.routing_engine_delete] else []) ++
  [some Routine.osm_sa_destroy, some Routine.osm_sm_destroy] ++
  (if B.ENABLE_OSM_PERF_MGR then [some Routine.osm_perfmgr_destroy] else []) ++
  [some Routine.osm_db_destroy, some Routine.osm_vl15_destroy, some Routine.osm_mad_pool_destroy,
    some Routine.osm_vendor_delete, some Routine.osm_subn_destroy,
    some Routine.cl_disp_destroy] ++
  (if B.HAVE_LIBPTHREAD then
    [some Routine.pthread_cond_destroy, some Routine.pthread_mutex_destroy]
  else [some Routine.cl_event_destroy]) ++
  [some Routine.close_node_name_map, some Routine.cl_plock_destroy,
    some Routine.osm_log_destroy]

/-! ## Projections through the primitive steps -/

@[simp]
theorem set_log_daemon_trace (w : World) :
    (set_log_daemon w).trace = w.trace := rfl

@[simp]
theorem set_log_daemon_exit_flag (w : World) :
    (set_log_daemon w).osm_exit_flag = w.osm_exit_flag := rfl

@[simp]
theorem set_log_daemon_routing_engine (w : World) :
    (set_log_daemon w).osm.routing_engine = w.osm.routing_engine := rfl

@[simp]
theorem set_log_daemon_node_name_map (w : World) :
    (set_log_daemon w).osm.node_name_map = w.osm.node_name_map := rfl

@[simp]
theorem set_log_daemon_get_p_vendor (w : World) :
    (set_log_daemon w).osm.p_vendor = w.osm.p_vendor := rfl

@[simp]
theorem set_log_daemon_get_event_plugin (w : World) :
    (set_log_daemon w).osm.event_plugin = w.osm.event_plugin := rfl

@[simp]
theorem set_log_daemon_h_bind (w : World) :
    (set_log_daemon w).osm.sm_mad_ctrl_h_bind = w.osm.sm_mad_ctrl_h_bind := rfl

@[simp]
theorem set_p_vendor_trace (v : Option Nat) (w : World) :
    (set_p_vendor v w).trace = w.trace := rfl

@[simp]
theorem set_p_vendor_exit_flag (v : Option Nat) (w : World) :
    (set_p_vendor v w).osm_exit_flag = w.osm_exit_flag := rfl

@[simp]
theorem set_p_vendor_routing_engine (v : Option Nat) (w : World) :
    (set_p_vendor v w).osm.routing_engine = w.osm.routing_engine := rfl

@[simp]
theorem set_p_vendor_node_name_map (v : Option Nat) (w : World) :
    (set_p_vendor v w).osm.node_name_map = w.osm.node_name_map := rfl

@[simp]
theorem set_p_vendor_get_event_plugin (v : Option Nat) (w : World) :
    (set_p_vendor v w).osm.event_plugin = w.osm.event_plugin := rfl

@[simp]
theorem set_p_vendor_h_bind (v : Option Nat) (w : World) :
    (set_p_vendor v w).osm.sm_mad_ctrl_h_bind = w.osm.sm_mad_ctrl_h_bind := rfl

@[simp]
theorem set_event_plugin_trace (v : Option Nat) (w : World) :
    (set_event_plugin v w).trace = w.trace := rfl

@[simp]
theorem set_event_plugin_exit_flag (v : Option Nat) (w : World) :
    (set_event_plugin v w).osm_exit_flag = w.osm_exit_flag := rfl

@[simp]
theorem set_event_plugin_routing_engine (v : Option Nat) (w : World) :
    (set_event_plugin v w).osm.routing_engine = w.osm.routing_engine := rfl

@[simp]
theorem set_event_plugin_node_name_map (v : Option Nat) (w : World) :
    (set_event_plugin v w).osm.node_name_map = w.osm.node_name_map := rfl

@[simp]
theorem set_event_plugin_get_p_vendor (v : Option Nat) (w : World) :
    (set_event_plugin v w).osm.p_vendor = w.osm.p_vendor := rfl

@[simp]
theorem set_event_plugin_h_bind (v : Option Nat) (w : World) :
    (set_event_plugin v w).osm.sm_mad_ctrl_h_bind = w.osm.sm_mad_ctrl_h_bind := rfl

@[simp]
theorem set_routing_engine_used_trace (t : osm_routing_engine_type_t) (w : World) :
    (set_routing_engine_used t w).trace = w.trace := rfl

@[simp]
theorem set_routing_engine_used_exit_flag (t : osm_routing_engine_type_t) (w : World) :
    (set_routing_engine_used t w).osm_exit_flag = w.osm_exit_flag := rfl

@[simp]
theorem set_routing_engine_used_routing_engine (t : osm_routing_engine_type_t) (w : World) :
    (set_routing_engine_used t w).osm.routing_engine = w.osm.routing_engine := rfl

@[simp]
theorem set_routing_engine_used_node_name_map (t : osm_routing_engine_type_t) (w : World) :
    (set_routing_engine_used t w).osm.node_name_map = w.osm.node_name_map := rfl

@[simp]
theorem set_routing_engine_used_get_p_vendor (t : osm_routing_engine_type_t) (w : World) :
    (set_routing_engine_used t w).osm.p_vendor = w.osm.p_vendor := rfl

@[simp]
theorem set_routing_engine_used_get_event_plugin (t : osm_routing_engine_type_t) (w : World) :
    (set_routing_engine_used t w).osm.event_plugin = w.osm.event_plugin := rfl

@[simp]
theorem set_routing_engine_used_h_bind (t : osm_routing_engine_type_t) (w : World) :
    (set_routing_engine_used t w).osm.sm_mad_ctrl_h_bind = w.osm.sm_mad_ctrl_h_bind := rfl

@[simp]
theorem set_node_name_map_trace (v : Option Nat) (w : World) :
    (set_node_name_map v w).trace = w.trace := rfl

@[simp]
theorem set_node_name_map_exit_flag (v : Option Nat) (w : World) :
    (set_node_name_map v w).osm_exit_flag = w.osm_exit_flag := rfl

@[simp]
theorem set_node_name_map_routing_engine (v : Option Nat) (w : World) :
    (set_node_name_map v w).osm.routing_engine = w.osm.routing_engine := rfl

@[simp]
theorem set_node_name_map_get_p_vendor (v : Option Nat) (w : World) :
    (set_node_name_map v w).osm.p_vendor = w.osm.p_vendor := rfl

@[simp]
theorem set_node_name_map_get_event_plugin (v : Option Nat) (w : World) :
    (set_node_name_map v w).osm.event_plugin = w.osm.event_plugin := rfl

@[simp]
theorem set_node_name_map_h_bind (v : Option Nat) (w : World) :
    (set_node_name_map v w).osm.sm_mad_ctrl_h_bind = w.osm.sm_mad_ctrl_h_bind := rfl

@[simp]
theorem set_routing_engine_name_trace (n : CString) (w : World) :
    (set_routing_engine_name n w).trace = w.trace := rfl

@[simp]
theorem set_routing_engine_name_exit_flag (n : CString) (w : World) :
    (set_routing_engine_name n w).osm_exit_flag = w.osm_exit_flag := rfl

@[simp]
theorem set_routing_engine_name_node_name_map (n : CString) (w : World) :
    (set_routing_engine_name n w).osm.node_name_map = w.osm.node_name_map := rfl

@[simp]
theorem set_routing_engine_name_get_p_vendor (n : CString) (w : World) :
    (set_routing_engine_name n w).osm.p_vendor = w.osm.p_vendor := rfl

@[simp]
theorem set_routing_engine_name_get_event_plugin (n : CString) (w : World) :
    (set_routing_engine_name n w).osm.event_plugin = w.osm.event_plugin := rfl

@[simp]
theorem set_routing_engine_name_h_bind (n : CString) (w : World) :
    (set_routing_engine_name n w).osm.sm_mad_ctrl_h_bind = w.osm.sm_mad_ctrl_h_bind := rfl

@[simp]
theorem set_p_vendor_p_vendor (v : Option Nat) (w : World) :
    (set_p_vendor v w).osm.p_vendor = v := rfl

@[simp]
theorem set_event_plugin_event_plugin (v : Option Nat) (w : World) :
    (set_event_plugin v w).osm.event_plugin = v := rfl

@[simp]
theorem set_node_name_map_map (v : Option Nat) (w : World) :
    (set_node_name_map v w).osm.node_name_map = v := rfl

@[simp]
theorem set_routing_engine_name_name (n : CString) (w : World) :
    (set_routing_engine_name n w).osm.routing_engine.name = some n := rfl

@[simp]
theorem set_routing_engine_name_context (n : CString) (w : World) :
    (set_routing_engine_name n w).osm.routing_engine.context = w.osm.routing_engine.context := rfl

@[simp]
theorem set_routing_engine_name_delete (n : CString) (w : World) :
    (set_routing_engine_name n w).osm.routing_engine.delete = w.osm.routing_engine.delete := rfl

@[simp]
theorem set_osm_exit_flag_trace (w : World) :
    (set_osm_exit_flag w).trace = w.trace ++ [Action.set_osm_exit_flag] := rfl

@[simp]
theorem set_osm_exit_flag_flag (w : World) :
    (set_osm_exit_flag w).osm_exit_flag = true := rfl

@[simp]
theorem set_osm_exit_flag_osm (w : World) :
    (set_osm_exit_flag w).osm = w.osm := rfl

@[simp]
theorem osm_log_trace (site : LogSite) (w : World) :
    (osm_log site w).trace = w.trace ++ [Action.call ⟨Routine.osm_log, [Arg.site site]⟩] := rfl

@[simp]
theorem osm_log_osm (site : LogSite) (w : World) :
    (osm_log site w).osm = w.osm := rfl

@[simp]
theorem osm_log_exit_flag (site : LogSite) (w : World) :
    (osm_log site w).osm_exit_flag = w.osm_exit_flag := rfl

@[simp]
theorem invoke_trace (E : Env) (c : Call) (w : World) :
    (invoke E c w).trace = w.trace ++ [Action.call c] := rfl

@[simp]
theorem invoke_osm (E : Env) (c : Call) (w : World) :
    (invoke E c w).osm = E.effect c w.osm := rfl

@[simp]
theorem invoke_exit_flag (E : Env) (c : Call) (w : World) :
    (invoke E c w).osm_exit_flag = w.osm_exit_flag := rfl

@[simp]
theorem invokeStatus_fst (E : Env) (c : Call) (w : World) :
    (invokeStatus E c w).1 = E.status c w.osm := rfl

@[simp]
theorem invokeStatus_snd (E : Env) (c : Call) (w : World) :
    (invokeStatus E c w).2 = invoke E c w := rfl

@[simp]
theorem invokeRc_fst (E : Env) (c : Call) (w : World) :
    (invokeRc E c w).1 = E.rc c w.osm := rfl

@[simp]
theorem invokeRc_snd (E : Env) (c : Call) (w : World) :
    (invokeRc E c w).2 = invoke E c w := rfl

@[simp]
theorem invokeHandle_fst (E : Env) (c : Call) (w : World) :
    (invokeHandle E c w).1 = E.handle c w.osm := rfl

@[simp]
theorem invokeHandle_snd (E : Env) (c : Call) (w : World) :
    (invokeHandle E c w).2 = invoke E c w := rfl

@[simp]
theorem osm_opensm_init_Exit_fst (s : ib_api_status_t) (w : World) :
    (osm_opensm_init_Exit s w).1 = s := rfl

@[simp]
theorem osm_opensm_init_Exit_snd (s : ib_api_status_t) (w : World) :
    (osm_opensm_init_Exit s w).2 = osm_log LogSite.init_exit w := rfl

@[simp]
theorem osm_opensm_bind_Exit_fst (s : ib_api_status_t) (w : World) :
    (osm_opensm_bind_Exit s w).1 = s := rfl

@[simp]
theorem osm_opensm_bind_Exit_snd (s : ib_api_status_t) (w : World) :
    (osm_opensm_bind_Exit s w).2 = osm_log LogSite.bind_exit w := rfl

/-! ## Lemmas on the string comparisons -/

theorem strcmp_self (s : CString) : strcmp s s = 0 := by
  induction s with
  | nil => rfl
  | cons a as ih => simp [strcmp, ih]

theorem strcasecmp_eq_strcmp_map (s t : CString) :
    strcasecmp s t = strcmp (s.map tolower) (t.map tolower) := by
  induction s generalizing t with
  | nil => cases t <;> simp [strcasecmp, strcmp]
  | cons a as ih =>
    cases t with
    | nil => simp [strcasecmp, strcmp]
    | cons b bs => simp [strcasecmp, strcmp, ih]

theorem strcasecmp_congr_left {s s1 : CString} (h : EqIgnoreCase s s1) (t : CString) :
    strcasecmp s t = strcasecmp s1 t := by
  unfold EqIgnoreCase at h
  rw [strcasecmp_eq_strcmp_map, strcasecmp_eq_strcmp_map, h]

theorem strcasecmp_eq_zero_of_eqIgnoreCase {s t : CString} (h : EqIgnoreCase s t) :
    strcasecmp s t = 0 := by
  unfold EqIgnoreCase at h
  rw [strcasecmp_eq_strcmp_map, h, strcmp_self]

theorem strcmp_eq_zero_iff {s t : CString} (hs : NoNul s) (ht : NoNul t) :
    strcmp s t = 0 ↔ s = t := by
  induction s generalizing t with
  | nil =>
    cases t with
    | nil => simp [strcmp]
    | cons b bs =>
      have hb : b ≠ 0 := ht b (by simp)
      simp [strcmp]
      omega
  | cons a as ih =>
    have ha : a ≠ 0 := hs a (by simp)
    have has : NoNul as := fun x hx => hs x (by simp [hx])
    cases t with
    | nil =>
      simp [strcmp]
      omega
    | cons b bs =>
      have hbs : NoNul bs := fun x hx => ht x (by simp [hx])
      by_cases hab : a = b
      · simp [strcmp, hab, ih has hbs]
      · simp [strcmp, hab]
        omega

/-! ## Claims on the name ↔ enum mapping -/

/-- C1: for every name in none, minhop, updn, file, ftree, lash, dor, mapping the
name to its enum value and back gives the name again; "null" maps to the same
enum value as "minhop"; and for no enum value (`OSM_ROUTING_ENGINE_TYPE_UNKNOWN`
and out-of-range values included) is the name returned "null". -/
theorem routing_engine_type_mapping_asymmetry :
    (∀ name ∈ [lit "none", lit "minhop", lit "updn", lit "file", lit "ftree", lit "lash",
        lit "dor"],
      osm_routing_engine_type_str (osm_routing_engine_type (some name)) = name) ∧
    osm_routing_engine_type (some (lit "null")) = osm_routing_engine_type (some (lit "minhop")) ∧
    ∀ type : osm_routing_engine_type_t, osm_routing_engine_type_str type ≠ lit "null" := by
  refine ⟨by decide, by decide, ?_⟩
  intro type
  cases type <;> simp [osm_routing_engine_type_str] <;> decide

/-- Witness of C1: the round trip on the name "lash". -/
theorem routing_engine_type_mapping_asymmetry_witness :
    lit "lash" ∈ [lit "none", lit "minhop", lit "updn", lit "file", lit "ftree", lit "lash",
        lit "dor"] ∧
      osm_routing_engine_type_str (osm_routing_engine_type (some (lit "lash"))) = lit "lash" :=
  ⟨by decide, routing_engine_type_mapping_asymmetry.1 (lit "lash") (by decide)⟩

/-- C2: `osm_routing_engine_type` is case-insensitive and follows the table: a
string equal, ignoring ASCII letter case, to none / updn / file / ftree / lash /
dor maps to the matching enumerator, one equal to minhop or null ignoring case
maps to MINHOP, and two strings that differ only in letter case map to the same
enum value. -/
theorem osm_routing_engine_type_case_insensitive (s : CString) :
    (EqIgnoreCase s (lit "none") →
      osm_routing_engine_type (some s) = OSM_ROUTING_ENGINE_TYPE_NONE) ∧
    (EqIgnoreCase s (lit "updn") →
      osm_routing_engine_type (some s) = OSM_ROUTING_ENGINE_TYPE_UPDN) ∧
    (EqIgnoreCase s (lit "file") →
      osm_routing_engine_type (some s) = OSM_ROUTING_ENGINE_TYPE_FILE) ∧
    (EqIgnoreCase s (lit "ftree") →
      osm_routing_engine_type (some s) = OSM_ROUTING_ENGINE_TYPE_FTREE) ∧
    (EqIgnoreCase s (lit "lash") →
      osm_routing_engine_type (some s) = OSM_ROUTING_ENGINE_TYPE_LASH) ∧
    (EqIgnoreCase s (lit "dor") →
      osm_routing_engine_type (some s) = OSM_ROUTING_ENGINE_TYPE_DOR) ∧
    (EqIgnoreCase s (lit "minhop") ∨ EqIgnoreCase s (lit "null") →
      osm_routing_engine_type (some s) = OSM_ROUTING_ENGINE_TYPE_MINHOP) ∧
    (∀ t : CString, EqIgnoreCase s t →
      osm_routing_engine_type (some s) = osm_routing_engine_type (some t)) := by
  have key : ∀ n : CString, EqIgnoreCase s n →
      osm_routing_engine_type (some s) = osm_routing_engine_type (some n) := by
    intro n h
    simp only [osm_routing_engine_type, strcasecmp_congr_left h]
  refine ⟨?_, ?_, ?_, ?_, ?_, ?_, ?_, key⟩
  · intro h; rw [key _ h]; decide
  · intro h; rw [key _ h]; decide
  · intro h; rw [key _ h]; decide
  · intro h; rw [key _ h]; decide
  · intro h; rw [key _ h]; decide
  · intro h; rw [key _ h]; decide
  · rintro (h | h) <;> rw [key _ h] <;> decide

/-- Witness of C2: the mixed-case name UpDn. -/
theorem osm_routing_engine_type_case_insensitive_witness :
    EqIgnoreCase (lit "UpDn") (lit "updn") ∧
      osm_routing_engine_type (some (lit "UpDn")) = OSM_ROUTING_ENGINE_TYPE_UPDN :=
  ⟨by decide, (osm_routing_engine_type_case_insensitive (lit "UpDn")).2.1 (by decide)⟩

/-- C3 as stated fails: the empty name is not mapped to MINHOP. -/
theorem osm_routing_engine_type_empty_not_minhop :
    ¬ (osm_routing_engine_type none = OSM_ROUTING_ENGINE_TYPE_MINHOP ∧
        osm_routing_engine_type (some (lit "")) = OSM_ROUTING_ENGINE_TYPE_MINHOP) := by
  decide

/-- C3, amended: `osm_routing_engine_type` maps an absent name (null pointer) to
MINHOP, and maps the empty name to UNKNOWN. -/
theorem osm_routing_engine_type_absent_and_empty :
    osm_routing_engine_type none = OSM_ROUTING_ENGINE_TYPE_MINHOP ∧
      osm_routing_engine_type (some (lit "")) = OSM_ROUTING_ENGINE_TYPE_UNKNOWN := by
  decide

/-! ## Claims on the registry lookup -/

theorem noNul_of_mem_routing_modules :
    ∀ m ∈ routing_modules, NoNul m.name ∧ m.name ≠ [] := by
  decide

theorem routing_modules_name_inj :
    ∀ m ∈ routing_modules, ∀ m1 ∈ routing_modules, m.name = m1.name → m = m1 := by
  decide

theorem setup_routing_engine_from_eq (E : Env) (name : CString) (hname : NoNul name)
    (l : List routing_engine_module) (hl : ∀ m ∈ l, NoNul m.name ∧ m.name ≠ []) (w : World) :
    setup_routing_engine_from E name l w =
      match l.find? (fun m => decide (m.name = name)) with
      | none => (-1, w)
      | some m => setup_routing_engine_hit E m w := by
  induction l with
  | nil => simp [setup_routing_engine_from]
  | cons r rs ih =>
    have hr := hl r (by simp)
    have hrs : ∀ m ∈ rs, NoNul m.name ∧ m.name ≠ [] := fun m hm => hl m (by simp [hm])
    by_cases h : r.name = name
    · subst h
      simp only [setup_routing_engine_from, if_neg hr.2, strcmp_self, if_true, List.find?,
        decide_True, setup_routing_engine_hit]
    · have h2 : ¬ strcmp r.name name = 0 := fun hc => h ((strcmp_eq_zero_iff hr.1 hname).1 hc)
      simp [setup_routing_engine_from, hr.2, h2, h, List.find?, ih hrs]

theorem setup_routing_engine_eq (E : Env) (w : World) (name : CString) (hname : NoNul name) :
    setup_routing_engine E w name =
      match routing_modules.find? (fun m => decide (m.name = name)) with
      | none => (-1, w)
      | some m => setup_routing_engine_hit E m w :=
  setup_routing_engine_from_eq E name hname routing_modules noNul_of_mem_routing_modules w

theorem call_setup_trace (E : Env) (f : SetupFn) (w : World) :
    ∃ a, (call_setup E f w).2.trace = w.trace ++ [a] ∧ isSetupInvocation a = true := by
  cases f <;>
    simp [call_setup, osm_ucast_null_setup, osm_log, invokeRc, invoke, isSetupInvocation]

theorem setup_routing_engine_hit_actions (E : Env) (m : routing_engine_module) (w : World) :
    (newActions w (setup_routing_engine_hit E m w).2).countP isSetupInvocation = 1 := by
  obtain ⟨a, ha, hs⟩ := call_setup_trace E m.setup (set_routing_engine_name m.name w)
  have hw : (set_routing_engine_name m.name w).trace = w.trace := rfl
  rw [hw] at ha
  unfold setup_routing_engine_hit newActions
  have hf : isSetupInvocation
      (Action.call ⟨Routine.osm_log, [Arg.site LogSite.setup_routing_engine_failed]⟩) = false := by
    decide
  have hu : isSetupInvocation
      (Action.call ⟨Routine.osm_log, [Arg.site LogSite.setup_routing_engine_set_up]⟩) = false := by
    decide
  split <;> simp [osm_log, ha, hs, hf, hu, List.countP_cons]

theorem setup_routing_engine_miss (E : Env) (w : World) (name : CString) (hname : NoNul name)
    (h : ∀ m ∈ routing_modules, m.name ≠ name) : setup_routing_engine E w name = (-1, w) := by
  rw [setup_routing_engine_eq E w name hname]
  have : routing_modules.find? (fun m => decide (m.name = name)) = none := by
    rw [List.find?_eq_none]
    intro m hm
    simpa using h m hm
  rw [this]

/-- C4: `setup_routing_engine` has exactly three outcomes, decided by exact
comparison of the name with the registry: it returns 0 iff the name equals the
name of a registry entry whose setup returns 0, -2 iff it equals the name of an
entry whose setup returns non-zero, and -1 iff it equals no entry name; exactly
one setup routine is invoked in the first two cases and none in the third.  For
"null", "minhop" and "dor" the result is always 0; for "UPDN" and "none" it is
-1. -/
theorem setup_routing_engine_outcomes (E : Env) (w : World) (name : CString)
    (hname : NoNul name) :
    ((setup_routing_engine E w name).1 = 0 ∨ (setup_routing_engine E w name).1 = -2 ∨
      (setup_routing_engine E w name).1 = -1) ∧
    ((setup_routing_engine E w name).1 = 0 ↔
      ∃ m ∈ routing_modules, m.name = name ∧
        (call_setup E m.setup (set_routing_engine_name m.name w)).1 = 0) ∧
    ((setup_routing_engine E w name).1 = -2 ↔
      ∃ m ∈ routing_modules, m.name = name ∧
        (call_setup E m.setup (set_routing_engine_name m.name w)).1 ≠ 0) ∧
    ((setup_routing_engine E w name).1 = -1 ↔ ∀ m ∈ routing_modules, m.name ≠ name) ∧
    ((newActions w (setup_routing_engine E w name).2).countP isSetupInvocation =
      if (setup_routing_engine E w name).1 = -1 then 0 else 1) ∧
    (setup_routing_engine E w (lit "null")).1 = 0 ∧
    (setup_routing_engine E w (lit "minhop")).1 = 0 ∧
    (setup_routing_engine E w (lit "dor")).1 = 0 ∧
    (setup_routing_engine E w (lit "UPDN")).1 = -1 ∧
    (setup_routing_engine E w (lit "none")).1 = -1 := by
  have hclosed : (setup_routing_engine E w (lit "null")).1 = 0 ∧
      (setup_routing_engine E w (lit "minhop")).1 = 0 ∧
      (setup_routing_engine E w (lit "dor")).1 = 0 ∧
      (setup_routing_engine E w (lit "UPDN")).1 = -1 ∧
      (setup_routing_engine E w (lit "none")).1 = -1 := by
    refine ⟨?_, ?_, ?_, ?_, ?_⟩
    · rw [setup_routing_engine_eq E w _ (by decide)]; rfl
    · rw [setup_routing_engine_eq E w _ (by decide)]; rfl
    · rw [setup_routing_engine_eq E w _ (by decide)]; rfl
    · rw [setup_routing_engine_miss E w _ (by decide) (by decide)]
    · rw [setup_routing_engine_miss E w _ (by decide) (by decide)]
  rw [setup_routing_engine_eq E w name hname]
  cases hfind : routing_modules.find? (fun m => decide (m.name = name)) with
  | none =>
    have hno : ∀ m ∈ routing_modules, m.name ≠ name := by
      intro m hm
      simpa using (List.find?_eq_none.1 hfind) m hm
    refine ⟨by simp, ?_, ?_, ?_, ?_, hclosed⟩
    · simp only [show ((-1 : Int) = 0) = False by decide, false_iff]
      rintro ⟨m, hm, hmn, -⟩
      exact hno m hm hmn
    · simp only [show ((-1 : Int) = -2) = False by decide, false_iff]
      rintro ⟨m, hm, hmn, -⟩
      exact hno m hm hmn
    · simpa using hno
    · simp [newActions]
  | some m =>
    have hmem : m ∈ routing_modules := List.mem_of_find?_eq_some hfind
    have hmn : m.name = name := by simpa using List.find?_some hfind
    have huniq : ∀ m1 ∈ routing_modules, m1.name = name → m1 = m := fun m1 h1 h2 =>
      routing_modules_name_inj m1 h1 m hmem (h2.trans hmn.symm)
    have hact := setup_routing_engine_hit_actions E m w
    simp only []
    by_cases hrc : (call_setup E m.setup (set_routing_engine_name m.name w)).1 = 0
    · have hres : (setup_routing_engine_hit E m w).1 = 0 := by
        simp [setup_routing_engine_hit, hrc]
      refine ⟨Or.inl hres, ?_, ?_, ?_, ?_, hclosed⟩
      · exact ⟨fun _ => ⟨m, hmem, hmn, hrc⟩, fun _ => hres⟩
      · rw [hres]
        simp only [show ((0 : Int) = -2) = False by decide, false_iff]
        rintro ⟨m1, h1, h2, h3⟩
        rw [huniq m1 h1 h2] at h3
        exact h3 hrc
      · rw [hres]
        simp only [show ((0 : Int) = -1) = False by decide, false_iff]
        intro h
        exact h m hmem hmn
      · rw [hact, hres]; simp
    · have hres : (setup_routing_engine_hit E m w).1 = -2 := by
        simp [setup_routing_engine_hit, hrc]
      refine ⟨Or.inr (Or.inl hres), ?_, ?_, ?_, ?_, hclosed⟩
      · rw [hres]
        simp only [show ((-2 : Int) = 0) = False by decide, false_iff]
        rintro ⟨m1, h1, h2, h3⟩
        rw [huniq m1 h1 h2] at h3
        exact hrc h3
      · exact ⟨fun _ => ⟨m, hmem, hmn, hrc⟩, fun _ => hres⟩
      · rw [hres]
        simp only [show ((-2 : Int) = -1) = False by decide, false_iff]
        intro h
        exact h m hmem hmn
      · rw [hact, hres]; simp

/-- Witness of C4: the name "ftree" in the quiet environment. -/
theorem setup_routing_engine_outcomes_witness :
    NoNul (lit "ftree") ∧
      ((setup_routing_engine quietEnv freshWorld (lit "ftree")).1 = 0 ∨
        (setup_routing_engine quietEnv freshWorld (lit "ftree")).1 = -2 ∨
        (setup_routing_engine quietEnv freshWorld (lit "ftree")).1 = -1) :=
  ⟨by decide, (setup_routing_engine_outcomes quietEnv freshWorld (lit "ftree") (by decide)).1⟩

/-- C5 as stated fails: on a fresh instance, with an "updn" setup routine that
returns non-zero and leaves the instance alone, `setup_routing_engine` returns
-2 and the descriptor has the name "updn", which it had not before. -/
theorem setup_routing_engine_failure_records_name :
    (∀ st, failingSetupEnv.effect ⟨Routine.osm_ucast_updn_setup, []⟩ st = st) ∧
    (setup_routing_engine failingSetupEnv freshWorld (lit "updn")).1 = -2 ∧
    freshWorld.osm.routing_engine.name = none ∧
    (setup_routing_engine failingSetupEnv freshWorld (lit "updn")).2.osm.routing_engine.name =
      some (lit "updn") ∧
    (setup_routing_engine failingSetupEnv freshWorld (lit "updn")).2.osm.routing_engine ≠
      freshWorld.osm.routing_engine := by
  refine ⟨fun _ => rfl, ?_, ?_, ?_, ?_⟩ <;> decide

/-- C5, amended: when the name is that of a registry entry whose setup routine
returns non-zero without itself touching the descriptor, `setup_routing_engine`
returns -2, the descriptor's name is the entry's name, and the descriptor's
context and teardown callback are the same as before the call. -/
theorem setup_routing_engine_failure_descriptor (E : Env) (w : World)
    (m : routing_engine_module) (hm : m ∈ routing_modules)
    (hfail : (call_setup E m.setup (set_routing_engine_name m.name w)).1 ≠ 0)
    (hframe : (call_setup E m.setup (set_routing_engine_name m.name w)).2.osm.routing_engine =
      (set_routing_engine_name m.name w).osm.routing_engine) :
    (setup_routing_engine E w m.name).1 = -2 ∧
    (setup_routing_engine E w m.name).2.osm.routing_engine.name = some m.name ∧
    (setup_routing_engine E w m.name).2.osm.routing_engine.context =
      w.osm.routing_engine.context ∧
    (setup_routing_engine E w m.name).2.osm.routing_engine.delete =
      w.osm.routing_engine.delete := by
  have hfind : routing_modules.find? (fun m1 => decide (m1.name = m.name)) = some m := by
    cases h : routing_modules.find? (fun m1 => decide (m1.name = m.name)) with
    | none =>
      have := (List.find?_eq_none.1 h) m hm
      simp at this
    | some m1 =>
      have h1 : m1 ∈ routing_modules := List.mem_of_find?_eq_some h
      have h2 : m1.name = m.name := by simpa using List.find?_some h
      rw [routing_modules_name_inj m1 h1 m hm h2]
  rw [setup_routing_engine_eq E w m.name (noNul_of_mem_routing_modules m hm).1, hfind]
  simp only [setup_routing_engine_hit, hfail, ne_eq, not_false_eq_true, if_true, osm_log, hframe]
  simp [set_routing_engine_name]

/-- Witness of C5, amended: "updn" with a failing setup routine, on a fresh
zeroed instance. -/
theorem setup_routing_engine_failure_descriptor_witness :
    (setup_routing_engine failingSetupEnv freshWorld (lit "updn")).1 = -2 ∧
    (setup_routing_engine failingSetupEnv freshWorld (lit "updn")).2.osm.routing_engine.name =
      some (lit "updn") ∧
    (setup_routing_engine failingSetupEnv freshWorld (lit "updn")).2.osm.routing_engine.context =
      freshWorld.osm.routing_engine.context ∧
    (setup_routing_engine failingSetupEnv freshWorld (lit "updn")).2.osm.routing_engine.delete =
      freshWorld.osm.routing_engine.delete :=
  setup_routing_engine_failure_descriptor failingSetupEnv freshWorld
    ⟨lit "updn", SetupFn.osm_ucast_updn_setup⟩ (by decide) (by decide) (by decide)

/-! ## Claims on initialization -/

theorem osm_opensm_init_routing_status (E : Env) (p_opt : osm_subn_opt_t)
    (status : ib_api_status_t) (w : World) :
    (osm_opensm_init_routing E p_opt status w).1 = status := rfl

theorem osm_opensm_init_plugin_success (B : Build) (E : Env) (p_opt : osm_subn_opt_t)
    (w : World) (hok : ∀ k, StepSucceeds B E k) :
    (osm_opensm_init_plugin B E p_opt IB_SUCCESS w).1 = IB_SUCCESS := by
  have h12 : B.ENABLE_OSM_PERF_MGR = true → Succeeds E Routine.osm_perfmgr_init := hok 12
  unfold Succeeds at h12
  cases hb : B.ENABLE_OSM_PERF_MGR <;>
    simp [osm_opensm_init_plugin, invokeStatus, invokeHandle, hb, h12,
      osm_opensm_init_routing_status]

theorem osm_opensm_init_disp_success (B : Build) (E : Env) (p_opt : osm_subn_opt_t) (w : World)
    (hok : ∀ k, StepSucceeds B E k) :
    (osm_opensm_init_disp B E p_opt w).1 = IB_SUCCESS := by
  have h3 : Succeeds E Routine.cl_disp_init := hok 3
  have h4 : Succeeds E Routine.osm_subn_init := hok 4
  have h5 : ∀ args st, E.handle ⟨Routine.osm_vendor_new, args⟩ st ≠ none := hok 5
  have h6 : Succeeds E Routine.osm_mad_pool_init := hok 6
  have h7 : Succeeds E Routine.osm_vl15_init := hok 7
  have h8 : Succeeds E Routine.osm_db_init := hok 8
  have h9 : Succeeds E Routine.osm_sm_init := hok 9
  have h10 : Succeeds E Routine.osm_sa_init := hok 10
  have hp := fun w1 => osm_opensm_init_plugin_success B E p_opt w1 hok
  unfold Succeeds at h3 h4 h6 h7 h8 h9 h10
  cases hst : p_opt.single_thread <;>
    simp [osm_opensm_init_disp, invokeStatus, invokeHandle, h3, h4, h5, h6, h7, h8, h9, h10,
      hst, hp]

theorem osm_opensm_construct_routing_engine (E : Env) (w : World)
    (hframe : PreservesRoutingEngine E) :
    (osm_opensm_construct E w).osm.routing_engine = zeroed.routing_engine := by
  simp [osm_opensm_construct, hframe _ _, zeroed]

theorem osm_opensm_init_routing_miss (E : Env) (p_opt : osm_subn_opt_t)
    (status : ib_api_status_t) (w : World) (hframe : PreservesRoutingEngine E)
    (name : CString) (hopt : p_opt.routing_engine_name = some name) (hname : NoNul name)
    (hmiss : ∀ m ∈ routing_modules, m.name ≠ name) :
    (osm_opensm_init_routing E p_opt status w).2.osm.routing_engine = w.osm.routing_engine := by
  simp [osm_opensm_init_routing, hopt, setup_routing_engine_miss E w name hname hmiss,
    hframe _ _]

theorem osm_opensm_init_plugin_miss (B : Build) (E : Env) (p_opt : osm_subn_opt_t)
    (status : ib_api_status_t) (w : World) (hframe : PreservesRoutingEngine E)
    (name : CString) (hopt : p_opt.routing_engine_name = some name) (hname : NoNul name)
    (hmiss : ∀ m ∈ routing_modules, m.name ≠ name) :
    (osm_opensm_init_plugin B E p_opt status w).2.osm.routing_engine = w.osm.routing_engine := by
  have hr := fun status w1 =>
    osm_opensm_init_routing_miss E p_opt status w1 hframe name hopt hname hmiss
  cases hb : B.ENABLE_OSM_PERF_MGR <;>
    simp only [osm_opensm_init_plugin, hb, invokeStatus, invokeHandle, Bool.false_eq_true,
      if_false, if_true, apply_ite Prod.snd, apply_ite World.osm,
      apply_ite osm_opensm_t.routing_engine, osm_opensm_init_Exit_snd, osm_log_osm, invoke_osm,
      hframe _ _, hr, set_event_plugin_routing_engine, ite_self]

theorem osm_opensm_init_disp_miss (B : Build) (E : Env) (p_opt : osm_subn_opt_t) (w : World)
    (hframe : PreservesRoutingEngine E)
    (name : CString) (hopt : p_opt.routing_engine_name = some name) (hname : NoNul name)
    (hmiss : ∀ m ∈ routing_modules, m.name ≠ name) :
    (osm_opensm_init_disp B E p_opt w).2.osm.routing_engine = w.osm.routing_engine := by
  have hr := fun status w1 =>
    osm_opensm_init_plugin_miss B E p_opt status w1 hframe name hopt hname hmiss
  cases hst : p_opt.single_thread <;>
    simp only [osm_opensm_init_disp, hst, invokeStatus, invokeHandle, Bool.false_eq_true,
      if_false, if_true, apply_ite Prod.snd, apply_ite World.osm,
      apply_ite osm_opensm_t.routing_engine, osm_opensm_init_Exit_snd, osm_log_osm, invoke_osm,
      hframe _ _, hr, set_p_vendor_routing_engine, set_event_plugin_routing_engine, ite_self]

theorem osm_opensm_init_miss (B : Build) (E : Env) (w : World) (p_opt : osm_subn_opt_t)
    (hframe : PreservesRoutingEngine E)
    (name : CString) (hopt : p_opt.routing_engine_name = some name) (hname : NoNul name)
    (hmiss : ∀ m ∈ routing_modules, m.name ≠ name) :
    (osm_opensm_init B E w p_opt).2.osm.routing_engine = zeroed.routing_engine := by
  have hd := fun w1 => osm_opensm_init_disp_miss B E p_opt w1 hframe name hopt hname hmiss
  have hc := osm_opensm_construct_routing_engine E w hframe
  cases hdm : p_opt.daemon <;>
    simp only [osm_opensm_init, hdm, invokeStatus, Bool.false_eq_true, if_false, if_true,
      apply_ite Prod.snd, apply_ite World.osm, apply_ite osm_opensm_t.routing_engine,
      osm_opensm_init_Exit_snd, osm_log_osm, invoke_osm, hframe _ _, hd, hc,
      set_log_daemon_routing_engine, ite_self]

/-- C6: routing-engine selection never changes the outcome of initialization:
when all subsystem initializations succeed, `osm_opensm_init` returns
`IB_SUCCESS` whatever the configured routing-engine name and whatever the setup
routines do; and when the name is in no registry entry (the external routines
leaving the descriptor alone), the descriptor's name, context and teardown
callback are all unset after initialization. -/
theorem osm_opensm_init_routing_engine_nonfatal (B : Build) (E : Env) (w : World)
    (p_opt : osm_subn_opt_t) (hok : ∀ k, StepSucceeds B E k) :
    (osm_opensm_init B E w p_opt).1 = IB_SUCCESS ∧
    (PreservesRoutingEngine E → ∀ name, p_opt.routing_engine_name = some name → NoNul name →
      (∀ m ∈ routing_modules, m.name ≠ name) →
      (osm_opensm_init B E w p_opt).2.osm.routing_engine =
        { name := none, context := none, delete := none }) := by
  constructor
  · have h1 : Succeeds E Routine.osm_log_init_v2 := hok 1
    have h2 : Succeeds E Routine.cl_plock_init ∧
        (B.HAVE_LIBPTHREAD = false → Succeeds E Routine.cl_event_init) := hok 2
    have hd := fun w1 => osm_opensm_init_disp_success B E p_opt w1 hok
    unfold Succeeds at h1 h2
    cases hb : B.HAVE_LIBPTHREAD <;>
      simp [osm_opensm_init, invokeStatus, h1, h2.1, h2.2, hb, hd]
  · intro hframe name hopt hname hmiss
    exact osm_opensm_init_miss B E w p_opt hframe name hopt hname hmiss

theorem quietEnv_succeeds (B : Build) : ∀ k, StepSucceeds B quietEnv k := by
  intro k
  unfold StepSucceeds
  split <;> simp [Succeeds, quietEnv]

/-- Witness of C6: the name "bogus" on a fresh instance in the quiet
environment, the performance manager compiled in. -/
theorem osm_opensm_init_routing_engine_nonfatal_witness :
    (osm_opensm_init ⟨true, true⟩ quietEnv freshWorld (optionsWithEngine (some (lit "bogus")))).1
        = IB_SUCCESS ∧
      (osm_opensm_init ⟨true, true⟩ quietEnv freshWorld
        (optionsWithEngine (some (lit "bogus")))).2.osm.routing_engine =
        { name := none, context := none, delete := none } :=
  ⟨(osm_opensm_init_routing_engine_nonfatal ⟨true, true⟩ quietEnv freshWorld
      (optionsWithEngine (some (lit "bogus"))) (quietEnv_succeeds _)).1,
    (osm_opensm_init_routing_engine_nonfatal ⟨true, true⟩ quietEnv freshWorld
      (optionsWithEngine (some (lit "bogus"))) (quietEnv_succeeds _)).2
      (fun _ _ => rfl) (lit "bogus") rfl (by decide) (by decide)⟩

/-! ### The order of the initialization steps -/

theorem stepsRun_trans {w w1 r : World} (h1 : w.trace <+: w1.trace)
    (h2 : w1.trace <+: r.trace) : stepsRun w r = stepsRun w w1 ++ stepsRun w1 r := by
  obtain ⟨X, hX⟩ := h1
  obtain ⟨Y, hY⟩ := h2
  simp [stepsRun, newActions, ← hY, ← hX]

theorem call_setup_step (E : Env) (f : SetupFn) (w : World) :
    ∃ a, (call_setup E f w).2.trace = w.trace ++ [a] ∧ stepOf a = some 13 := by
  cases f <;> simp [call_setup, osm_ucast_null_setup, stepOf]

theorem setup_routing_engine_from_steps (E : Env) (name : CString)
    (l : List routing_engine_module) (w : World) :
    w.trace <+: (setup_routing_engine_from E name l w).2.trace ∧
    (stepsRun w (setup_routing_engine_from E name l w).2 = [] ∨
      stepsRun w (setup_routing_engine_from E name l w).2 = [13]) := by
  induction l with
  | nil => simp [setup_routing_engine_from, stepsRun, newActions]
  | cons r rs ih =>
    obtain ⟨a, ha, hs⟩ := call_setup_step E r.setup (set_routing_engine_name r.name w)
    rw [set_routing_engine_name_trace] at ha
    have hf : stepOf
        (Action.call ⟨Routine.osm_log, [Arg.site LogSite.setup_routing_engine_failed]⟩) = none := by
      decide
    have hu : stepOf
        (Action.call ⟨Routine.osm_log, [Arg.site LogSite.setup_routing_engine_set_up]⟩) = none := by
      decide
    simp only [setup_routing_engine_from]
    split_ifs
    · simp [stepsRun, newActions]
    · simp [stepsRun, newActions, ha, hs, hf, List.filterMap_cons]
    · simp [stepsRun, newActions, ha, hs, hu, List.filterMap_cons]
    · exact ih

theorem osm_opensm_init_routing_steps (E : Env) (p_opt : osm_subn_opt_t)
    (status : ib_api_status_t) (w : World) :
    w.trace <+: (osm_opensm_init_routing E p_opt status w).2.trace ∧
    (stepsRun w (osm_opensm_init_routing E p_opt status w).2 = [14] ∨
      stepsRun w (osm_opensm_init_routing E p_opt status w).2 = [13, 14]) := by
  cases hopt : p_opt.routing_engine_name with
  | none => simp [osm_opensm_init_routing, hopt, stepsRun, newActions, stepOf]
  | some name =>
    obtain ⟨⟨X, hX⟩, hS⟩ := setup_routing_engine_from_steps E name routing_modules w
    have hS2 : X.filterMap stepOf = [] ∨ X.filterMap stepOf = [13] := by
      simpa [stepsRun, newActions, ← hX] using hS
    simp only [osm_opensm_init_routing, hopt, setup_routing_engine, invokeHandle]
    split_ifs <;> rcases hS2 with h | h <;>
      simp [stepsRun, newActions, ← hX, stepOf, h]

theorem osm_opensm_init_plugin_steps (B : Build) (E : Env) (p_opt : osm_subn_opt_t)
    (status : ib_api_status_t) (w : World) :
    w.trace <+: (osm_opensm_init_plugin B E p_opt status w).2.trace ∧
    ∃ T, stepsRun w (osm_opensm_init_plugin B E p_opt status w).2 = 11 :: T ∧
      T.Pairwise (· ≤ ·) ∧ ∀ t ∈ T, 11 ≤ t := by
  cases hb : B.ENABLE_OSM_PERF_MGR
  · simp only [osm_opensm_init_plugin, hb, invokeHandle, Bool.false_eq_true, if_false]
    generalize hW : set_event_plugin _ _ = W
    have hpre : w.trace <+: W.trace := by rw [← hW]; simp
    have hsteps : stepsRun w W = [11] := by rw [← hW]; simp [stepsRun, newActions, stepOf]
    obtain ⟨hp, hr⟩ := osm_opensm_init_routing_steps E p_opt status W
    refine ⟨hpre.trans hp, ?_⟩
    rw [stepsRun_trans hpre hp, hsteps]
    rcases hr with h | h <;> rw [h] <;> exact ⟨_, rfl, by decide, by decide⟩
  · simp only [osm_opensm_init_plugin, hb, invokeHandle, invokeStatus, if_true]
    split_ifs
    · refine ⟨by simp, [12], ?_, by decide, by decide⟩
      simp [stepsRun, newActions, stepOf]
    · generalize hW : invoke E ⟨Routine.osm_perfmgr_init, _⟩ _ = W
      have hpre : w.trace <+: W.trace := by rw [← hW]; simp
      have hsteps : stepsRun w W = [11, 12] := by
        rw [← hW]; simp [stepsRun, newActions, stepOf]
      obtain ⟨hp, hr⟩ := osm_opensm_init_routing_steps E p_opt
        (E.status ⟨Routine.osm_perfmgr_init, [Arg.opt p_opt,
          Arg.ptr (set_event_plugin (E.handle ⟨Routine.osm_epi_construct,
            [Arg.str p_opt.event_plugin_name]⟩ w.osm) (invoke E ⟨Routine.osm_epi_construct,
            [Arg.str p_opt.event_plugin_name]⟩ w)).osm.event_plugin]⟩
          (set_event_plugin (E.handle ⟨Routine.osm_epi_construct,
            [Arg.str p_opt.event_plugin_name]⟩ w.osm) (invoke E ⟨Routine.osm_epi_construct,
            [Arg.str p_opt.event_plugin_name]⟩ w)).osm) W
      refine ⟨hpre.trans hp, ?_⟩
      rw [stepsRun_trans hpre hp, hsteps]
      rcases hr with h | h <;> rw [h] <;> exact ⟨_, rfl, by decide, by decide⟩

theorem osm_opensm_init_disp_steps (B : Build) (E : Env) (p_opt : osm_subn_opt_t) (w : World)
    (hok : ∀ k, 3 ≤ k → k ≤ 10 → StepSucceeds B E k) :
    w.trace <+: (osm_opensm_init_disp B E p_opt w).2.trace ∧
    ∃ T, stepsRun w (osm_opensm_init_disp B E p_opt w).2 = [3, 4, 5, 6, 7, 8, 9, 10, 11] ++ T ∧
      T.Pairwise (· ≤ ·) ∧ ∀ t ∈ T, 11 ≤ t := by
  have h3 : Succeeds E Routine.cl_disp_init := hok 3 (by decide) (by decide)
  have h4 : Succeeds E Routine.osm_subn_init := hok 4 (by decide) (by decide)
  have h5 : ∀ args st, E.handle ⟨Routine.osm_vendor_new, args⟩ st ≠ none :=
    hok 5 (by decide) (by decide)
  have h6 : Succeeds E Routine.osm_mad_pool_init := hok 6 (by decide) (by decide)
  have h7 : Succeeds E Routine.osm_vl15_init := hok 7 (by decide) (by decide)
  have h8 : Succeeds E Routine.osm_db_init := hok 8 (by decide) (by decide)
  have h9 : Succeeds E Routine.osm_sm_init := hok 9 (by decide) (by decide)
  have h10 : Succeeds E Routine.osm_sa_init := hok 10 (by decide) (by decide)
  unfold Succeeds at h3 h4 h6 h7 h8 h9 h10
  cases hst : p_opt.single_thread <;>
  · simp only [osm_opensm_init_disp, invokeStatus, invokeHandle, h3, h4, h5, h6, h7, h8, h9, h10,
      hst, ne_eq, not_true_eq_false, if_false, if_true, Bool.false_eq_true,
      set_p_vendor_p_vendor]
    generalize hW : invoke E ⟨Routine.osm_sa_init, []⟩ _ = W
    have hpre : w.trace <+: W.trace := by rw [← hW]; simp
    have hsteps : stepsRun w W = [3, 4, 5, 6, 7, 8, 9, 10] := by
      rw [← hW]; simp [stepsRun, newActions, stepOf]
    obtain ⟨hp, T, hT, hT2, hT3⟩ := osm_opensm_init_plugin_steps B E p_opt IB_SUCCESS W
    refine ⟨hpre.trans hp, T, ?_, hT2, hT3⟩
    rw [stepsRun_trans hpre hp, hsteps, hT]
    rfl

theorem osm_opensm_init_disp_failure (B : Build) (E : Env) (p_opt : osm_subn_opt_t) (w : World)
    (n : Nat) (s : ib_api_status_t) (hn3 : 3 ≤ n) (hn : n ≤ 10) (hs : s ≠ IB_SUCCESS)
    (hprev : ∀ k, 3 ≤ k → k < n → StepSucceeds B E k) (hfail : CheckedFailure B E s n) :
    (osm_opensm_init_disp B E p_opt w).1 = (if n = 5 then IB_INSUFFICIENT_RESOURCES else s) ∧
    w.trace <+: (osm_opensm_init_disp B E p_opt w).2.trace ∧
    stepsRun w (osm_opensm_init_disp B E p_opt w).2 = List.range' 3 (n - 2) := by
  have h3 := hprev 3
  have h4 := hprev 4
  have h5 := hprev 5
  have h6 := hprev 6
  have h7 := hprev 7
  have h8 := hprev 8
  have h9 := hprev 9
  clear hprev
  interval_cases n <;>
    simp [StepSucceeds, CheckedFailure, Succeeds, FailsWith] at h3 h4 h5 h6 h7 h8 h9 hfail <;>
    cases hst : p_opt.single_thread <;>
    simp [osm_opensm_init_disp, invokeStatus, invokeHandle, hst, stepsRun, newActions, stepOf,
      List.range', *]

theorem osm_opensm_init_reaches_disp (B : Build) (E : Env) (w : World) (p_opt : osm_subn_opt_t)
    (h1 : StepSucceeds B E 1) (h2 : StepSucceeds B E 2) :
    ∃ W, osm_opensm_init B E w p_opt = osm_opensm_init_disp B E p_opt W ∧
      w.trace <+: W.trace ∧ (stepsRun w W = [1, 2, 2, 2] ∨ stepsRun w W = [1, 2, 2]) := by
  simp only [StepSucceeds, Succeeds] at h1 h2
  obtain ⟨h2a, h2b⟩ := h2
  cases hb : B.HAVE_LIBPTHREAD
  · have h2c := h2b hb
    cases hd : p_opt.daemon <;>
    · simp only [osm_opensm_init, invokeStatus, h1, h2a, h2c, hb, hd, ne_eq, not_true_eq_false,
        if_false, if_true, Bool.false_eq_true]
      generalize hW : invoke E ⟨Routine.cl_event_init, _⟩ _ = W
      refine ⟨W, rfl, ?_, Or.inr ?_⟩ <;> rw [← hW] <;>
        simp [osm_opensm_construct, stepsRun, newActions, stepOf]
  · cases hd : p_opt.daemon <;>
    · simp only [osm_opensm_init, invokeStatus, h1, h2a, hb, hd, ne_eq, not_true_eq_false,
        if_false, if_true, Bool.false_eq_true]
      generalize hW : invoke E ⟨Routine.pthread_cond_init, _⟩ _ = W
      refine ⟨W, rfl, ?_, Or.inl ?_⟩ <;> rw [← hW] <;>
        simp [osm_opensm_construct, stepsRun, newActions, stepOf]

/-- Initialization stops at the first failure that it checks.  For every `n`
from 1 to 10, if steps 1 to `n - 1` succeed and step `n` has a checked failure
with status `s`, then `osm_opensm_init` returns `s`
(`IB_INSUFFICIENT_RESOURCES` when `n` is 5, the transport handle), the steps of
the actions it performed are in non-decreasing order, and the steps performed
are exactly 1 to `n`.  If no checked failure occurs in the ten steps, the steps
performed are in non-decreasing order and contain each of 1 to 10.  The failure
of `pthread_mutex_init` or `pthread_cond_init` is not a checked failure. -/
theorem osm_opensm_init_checked_failure (B : Build) (E : Env) (w : World)
    (p_opt : osm_subn_opt_t) :
    (∀ n s, 1 ≤ n → n ≤ 10 → s ≠ IB_SUCCESS →
      (∀ k, 1 ≤ k → k < n → StepSucceeds B E k) → CheckedFailure B E s n →
      (osm_opensm_init B E w p_opt).1 = (if n = 5 then IB_INSUFFICIENT_RESOURCES else s) ∧
      (stepsRun w (osm_opensm_init B E w p_opt).2).Pairwise (· ≤ ·) ∧
      ∀ k, k ∈ stepsRun w (osm_opensm_init B E w p_opt).2 ↔ 1 ≤ k ∧ k ≤ n) ∧
    ((∀ k, 1 ≤ k → k ≤ 10 → StepSucceeds B E k) →
      (stepsRun w (osm_opensm_init B E w p_opt).2).Pairwise (· ≤ ·) ∧
      ∀ k, 1 ≤ k → k ≤ 10 → k ∈ stepsRun w (osm_opensm_init B E w p_opt).2) := by
  constructor
  · intro n s hn1 hn hs hprev hfail
    rcases Nat.lt_or_ge n 3 with hlt | hge
    · have hn12 : n = 1 ∨ n = 2 := by omega
      rcases hn12 with rfl | rfl
      · simp only [CheckedFailure, FailsWith] at hfail
        cases hd : p_opt.daemon <;>
          simp [osm_opensm_init, invokeStatus, hfail, hs, hd, osm_opensm_construct, stepsRun,
            newActions, stepOf] <;> intro k <;> omega
      · have h1 : Succeeds E Routine.osm_log_init_v2 := hprev 1 (by decide) (by decide)
        simp only [CheckedFailure, FailsWith, Succeeds] at hfail h1
        rcases hfail with hf | ⟨hb, hpl, hev⟩
        · cases hd : p_opt.daemon <;>
            simp [osm_opensm_init, invokeStatus, h1, hf, hs, hd, osm_opensm_construct, stepsRun,
              newActions, stepOf] <;> omega
        · cases hd : p_opt.daemon <;>
            simp [osm_opensm_init, invokeStatus, h1, hpl, hev, hb, hs, hd, osm_opensm_construct,
              stepsRun, newActions, stepOf] <;> omega
    · obtain ⟨W, hW, hpre, hsteps⟩ := osm_opensm_init_reaches_disp B E w p_opt
        (hprev 1 (by decide) (by omega)) (hprev 2 (by decide) (by omega))
      obtain ⟨hr, hp, hst⟩ := osm_opensm_init_disp_failure B E p_opt W n s hge hn hs
        (fun k hk3 hkn => hprev k (by omega) hkn) hfail
      rw [hW, stepsRun_trans hpre hp, hst]
      refine ⟨hr, ?_, ?_⟩
      · rcases hsteps with h | h <;> rw [h] <;> interval_cases n <;> decide
      · intro k
        rcases hsteps with h | h <;> rw [h] <;> interval_cases n <;>
          simp [List.range'] <;> omega
  · intro hok
    obtain ⟨W, hW, hpre, hsteps⟩ := osm_opensm_init_reaches_disp B E w p_opt
      (hok 1 (by decide) (by decide)) (hok 2 (by decide) (by decide))
    obtain ⟨hp, T, hT, hT2, hT3⟩ := osm_opensm_init_disp_steps B E p_opt W
      (fun k hk3 hk10 => hok k (by omega) hk10)
    rw [hW, stepsRun_trans hpre hp, hT]
    constructor
    · have hle : ∀ L : List Nat, L.Pairwise (· ≤ ·) → (∀ a ∈ L, a ≤ 11) →
          (L ++ T).Pairwise (· ≤ ·) := fun L h1 h2 =>
        List.pairwise_append.2 ⟨h1, hT2, fun a ha b hb => le_trans (h2 a ha) (hT3 b hb)⟩
      rcases hsteps with h | h <;> rw [h, ← List.append_assoc] <;>
        exact hle _ (by decide) (by decide)
    · intro k hk1 hk10
      rcases hsteps with h | h <;> rw [h] <;> interval_cases k <;> simp

/-- An instance of the checked failures: `osm_vendor_new` returns no handle, so
step 5 fails after steps 1 to 4 succeeded. -/
theorem osm_opensm_init_checked_failure_at_vendor :
    CheckedFailure ⟨true, true⟩ noVendorEnv (IB_ERROR 0) 5 ∧
    ((osm_opensm_init ⟨true, true⟩ noVendorEnv freshWorld (optionsWithEngine none)).1 =
        IB_INSUFFICIENT_RESOURCES ∧
      (stepsRun freshWorld
        (osm_opensm_init ⟨true, true⟩ noVendorEnv freshWorld (optionsWithEngine none)).2).Pairwise
          (· ≤ ·) ∧
      ∀ k, k ∈ stepsRun freshWorld
          (osm_opensm_init ⟨true, true⟩ noVendorEnv freshWorld (optionsWithEngine none)).2 ↔
        1 ≤ k ∧ k ≤ 5) :=
  ⟨fun _ _ => rfl,
    (osm_opensm_init_checked_failure ⟨true, true⟩ noVendorEnv freshWorld (optionsWithEngine none)).1
      5 (IB_ERROR 0) (by decide) (by decide) (by decide)
      (by
        intro k hk1 hk5
        interval_cases k <;> simp [StepSucceeds, Succeeds, noVendorEnv])
      (fun _ _ => rfl)⟩

/-- C7 does not hold of the code.  In a build with pthreads, let
`pthread_cond_init` return the error 12 and every other routine succeed: step 2
(the synchronization primitives) has failed after step 1 succeeded, and the
claim has `osm_opensm_init` stop there and return the failure.  The code drops
the result of `pthread_cond_init`: `osm_opensm_init` returns `IB_SUCCESS` and
goes on through steps 3 to 14. -/
theorem osm_opensm_init_ignores_pthread_failure :
    (∀ st, condInitFailEnv.rc ⟨Routine.pthread_cond_init, [Arg.ptr none]⟩ st = 12) ∧
    (∀ args st, condInitFailEnv.status ⟨Routine.osm_log_init_v2, args⟩ st = IB_SUCCESS) ∧
    Action.call ⟨Routine.pthread_cond_init, [Arg.ptr none]⟩ ∈
      newActions freshWorld
        (osm_opensm_init ⟨true, true⟩ condInitFailEnv freshWorld (optionsWithEngine none)).2 ∧
    (osm_opensm_init ⟨true, true⟩ condInitFailEnv freshWorld (optionsWithEngine none)).1 =
      IB_SUCCESS ∧
    stepsRun freshWorld
        (osm_opensm_init ⟨true, true⟩ condInitFailEnv freshWorld (optionsWithEngine none)).2 =
      [1, 2, 2, 2, 3, 4, 5, 6, 7, 8, 9, 10, 11, 12, 14] := by
  refine ⟨fun _ => rfl, fun _ _ => rfl, ?_, ?_, ?_⟩ <;> decide

/-! ## Claims on binding -/

/-- C8: `osm_opensm_bind` attempts the SM bind, then the SA bind, then (only
where the performance manager is compiled in) the performance-manager bind, all with
the given GUID; it stops at the first failure and returns its status.  If the
SM bind fails, neither SA nor performance manager is attempted; if the SM bind
succeeds and the SA bind fails with status `s`, the performance-manager bind is
not attempted and the result is `s`; and the result is success only when every
attempted bind succeeded. -/
theorem osm_opensm_bind_short_circuit (B : Build) (E : Env) (w : World) (guid : Nat) :
    (E.status ⟨Routine.osm_sm_bind, [Arg.num guid]⟩ w.osm ≠ IB_SUCCESS →
      (osm_opensm_bind B E w guid).1 = E.status ⟨Routine.osm_sm_bind, [Arg.num guid]⟩ w.osm ∧
      newActions w (osm_opensm_bind B E w guid).2 =
        [Action.call ⟨Routine.osm_log, [Arg.site LogSite.bind_enter]⟩,
          Action.call ⟨Routine.osm_sm_bind, [Arg.num guid]⟩,
          Action.call ⟨Routine.osm_log, [Arg.site LogSite.bind_exit]⟩]) ∧
    (E.status ⟨Routine.osm_sm_bind, [Arg.num guid]⟩ w.osm = IB_SUCCESS →
      ∀ s, s ≠ IB_SUCCESS →
      E.status ⟨Routine.osm_sa_bind, [Arg.num guid]⟩
        (E.effect ⟨Routine.osm_sm_bind, [Arg.num guid]⟩ w.osm) = s →
      (osm_opensm_bind B E w guid).1 = s ∧
      newActions w (osm_opensm_bind B E w guid).2 =
        [Action.call ⟨Routine.osm_log, [Arg.site LogSite.bind_enter]⟩,
          Action.call ⟨Routine.osm_sm_bind, [Arg.num guid]⟩,
          Action.call ⟨Routine.osm_sa_bind, [Arg.num guid]⟩,
          Action.call ⟨Routine.osm_log, [Arg.site LogSite.bind_exit]⟩]) ∧
    (E.status ⟨Routine.osm_sm_bind, [Arg.num guid]⟩ w.osm = IB_SUCCESS →
      E.status ⟨Routine.osm_sa_bind, [Arg.num guid]⟩
        (E.effect ⟨Routine.osm_sm_bind, [Arg.num guid]⟩ w.osm) = IB_SUCCESS →
      (B.ENABLE_OSM_PERF_MGR = true →
        (osm_opensm_bind B E w guid).1 =
          E.status ⟨Routine.osm_perfmgr_bind, [Arg.num guid]⟩
            (E.effect ⟨Routine.osm_sa_bind, [Arg.num guid]⟩
              (E.effect ⟨Routine.osm_sm_bind, [Arg.num guid]⟩ w.osm)) ∧
        newActions w (osm_opensm_bind B E w guid).2 =
          [Action.call ⟨Routine.osm_log, [Arg.site LogSite.bind_enter]⟩,
            Action.call ⟨Routine.osm_sm_bind, [Arg.num guid]⟩,
            Action.call ⟨Routine.osm_sa_bind, [Arg.num guid]⟩,
            Action.call ⟨Routine.osm_perfmgr_bind, [Arg.num guid]⟩,
            Action.call ⟨Routine.osm_log, [Arg.site LogSite.bind_exit]⟩]) ∧
      (B.ENABLE_OSM_PERF_MGR = false →
        (osm_opensm_bind B E w guid).1 = IB_SUCCESS ∧
        newActions w (osm_opensm_bind B E w guid).2 =
          [Action.call ⟨Routine.osm_log, [Arg.site LogSite.bind_enter]⟩,
            Action.call ⟨Routine.osm_sm_bind, [Arg.num guid]⟩,
            Action.call ⟨Routine.osm_sa_bind, [Arg.num guid]⟩,
            Action.call ⟨Routine.osm_log, [Arg.site LogSite.bind_exit]⟩])) ∧
    ((osm_opensm_bind B E w guid).1 = IB_SUCCESS →
      E.status ⟨Routine.osm_sm_bind, [Arg.num guid]⟩ w.osm = IB_SUCCESS ∧
      E.status ⟨Routine.osm_sa_bind, [Arg.num guid]⟩
        (E.effect ⟨Routine.osm_sm_bind, [Arg.num guid]⟩ w.osm) = IB_SUCCESS ∧
      (B.ENABLE_OSM_PERF_MGR = true →
        E.status ⟨Routine.osm_perfmgr_bind, [Arg.num guid]⟩
          (E.effect ⟨Routine.osm_sa_bind, [Arg.num guid]⟩
            (E.effect ⟨Routine.osm_sm_bind, [Arg.num guid]⟩ w.osm)) = IB_SUCCESS)) := by
  refine ⟨?_, ?_, ?_, ?_⟩
  · intro h
    simp [osm_opensm_bind, invokeStatus, h, newActions]
  · intro h s hs hsa
    simp [osm_opensm_bind, invokeStatus, h, hsa, hs, newActions]
  · intro h hsa
    constructor
    · intro hb
      simp [osm_opensm_bind, invokeStatus, h, hsa, hb, newActions]
    · intro hb
      simp [osm_opensm_bind, invokeStatus, h, hsa, hb, newActions]
  · by_cases h : E.status ⟨Routine.osm_sm_bind, [Arg.num guid]⟩ w.osm = IB_SUCCESS
    · by_cases hsa : E.status ⟨Routine.osm_sa_bind, [Arg.num guid]⟩
          (E.effect ⟨Routine.osm_sm_bind, [Arg.num guid]⟩ w.osm) = IB_SUCCESS
      · cases hb : B.ENABLE_OSM_PERF_MGR <;>
          simp [osm_opensm_bind, invokeStatus, h, hsa, hb]
      · simp [osm_opensm_bind, invokeStatus, h, hsa]
    · simp [osm_opensm_bind, invokeStatus, h]

/-- Witness of C8: the SM bind succeeds and the SA bind fails with `IB_ERROR 3`;
the performance-manager bind is not attempted. -/
theorem osm_opensm_bind_short_circuit_witness :
    (osm_opensm_bind ⟨true, true⟩ saBindFailEnv freshWorld 17).1 = IB_ERROR 3 ∧
    newActions freshWorld (osm_opensm_bind ⟨true, true⟩ saBindFailEnv freshWorld 17).2 =
      [Action.call ⟨Routine.osm_log, [Arg.site LogSite.bind_enter]⟩,
        Action.call ⟨Routine.osm_sm_bind, [Arg.num 17]⟩,
        Action.call ⟨Routine.osm_sa_bind, [Arg.num 17]⟩,
        Action.call ⟨Routine.osm_log, [Arg.site LogSite.bind_exit]⟩] :=
  (osm_opensm_bind_short_circuit ⟨true, true⟩ saBindFailEnv freshWorld 17).2.1 rfl
    (IB_ERROR 3) (by decide) rfl

/-! ## Claims on teardown -/

theorem newActions_trans {w w1 r : World} (h1 : w.trace <+: w1.trace)
    (h2 : w1.trace <+: r.trace) : newActions w r = newActions w w1 ++ newActions w1 r := by
  obtain ⟨X, hX⟩ := h1
  obtain ⟨Y, hY⟩ := h2
  simp [newActions, ← hY, ← hX]

theorem osm_opensm_destroy_shutdown_spec (B : Build) (E : Env) (w : World) :
    w.trace <+: (osm_opensm_destroy_shutdown B E w).trace ∧
    (newActions w (osm_opensm_destroy_shutdown B E w)).map Action.routine =
      shutdownOrder B w.osm.sm_mad_ctrl_h_bind.isSome ∧
    (osm_opensm_destroy_shutdown B E w).osm_exit_flag = true ∧
    (PreservesRoutingEngine E →
      (osm_opensm_destroy_shutdown B E w).osm.routing_engine = w.osm.routing_engine) := by
  rcases B with ⟨en, pt⟩
  cases hh : w.osm.sm_mad_ctrl_h_bind <;> cases en <;>
    simp only [osm_opensm_destroy_shutdown, set_osm_exit_flag_osm, hh, Bool.false_eq_true,
      if_false, if_true] <;>
    refine ⟨by simp, by simp [newActions, Action.routine, shutdownOrder], by simp, ?_⟩ <;>
    intro hframe <;> simp [hframe _ _]

theorem osm_opensm_destroy_objects_spec (B : Build) (E : Env) (w : World) :
    w.trace <+: (osm_opensm_destroy_objects B E w).trace ∧
    (newActions w (osm_opensm_destroy_objects B E w)).map Action.routine =
      objectsOrder B w.osm.routing_engine.delete.isSome ∧
    (∀ f, w.osm.routing_engine.delete = some f →
      Action.call ⟨Routine.routing_engine_delete,
          [Arg.ptr (some f), Arg.ptr w.osm.routing_engine.context]⟩ ∈
        newActions w (osm_opensm_destroy_objects B E w)) ∧
    (osm_opensm_destroy_objects B E w).osm_exit_flag = w.osm_exit_flag ∧
    (PreservesRoutingEngine E →
      (osm_opensm_destroy_objects B E w).osm.routing_engine = w.osm.routing_engine) := by
  rcases B with ⟨en, pt⟩
  cases hd : w.osm.routing_engine.delete <;> cases en <;> cases pt <;>
    simp only [osm_opensm_destroy_objects, hd, Bool.false_eq_true, if_false, if_true] <;>
    refine ⟨by simp, by simp [newActions, Action.routine, objectsOrder], ?_, by simp, ?_⟩ <;>
    first
      | (intro f hf; simp at hf; subst hf; simp [newActions])
      | (intro f hf; simp at hf)
      | (intro hframe; simp [hframe _ _])

theorem osm_opensm_destroy_spec (B : Build) (E : Env) (w : World) :
    ∃ bound deleted : Bool,
      (newActions w (osm_opensm_destroy B E w)).map Action.routine =
        shutdownOrder B bound ++ objectsOrder B deleted ∧
      (PreservesRoutingEngine E → deleted = w.osm.routing_engine.delete.isSome) := by
  obtain ⟨hp1, hr1, -, hf1⟩ := osm_opensm_destroy_shutdown_spec B E w
  obtain ⟨hp2, hr2, -, -, -⟩ :=
    osm_opensm_destroy_objects_spec B E (osm_opensm_destroy_shutdown B E w)
  refine ⟨w.osm.sm_mad_ctrl_h_bind.isSome,
    (osm_opensm_destroy_shutdown B E w).osm.routing_engine.delete.isSome, ?_, ?_⟩
  · rw [osm_opensm_destroy, newActions_trans hp1 hp2, List.map_append, hr1, hr2]
  · intro hframe
    rw [hf1 hframe]

/-- C9: teardown ordering.  In the sequence of actions of `osm_opensm_destroy`,
the write of the exit flag comes first, before any routine is invoked; the
dispatcher shutdown comes after the SA shutdown, the SM shutdown and the VL15
shutdown; every destroy routine that is invoked comes after the dispatcher
shutdown; the log destruction is the last action; and each of these routines is
invoked exactly once (those of the performance manager where it is compiled in, and of
the two variants of the statistics primitives the one that is compiled in). -/
theorem osm_opensm_destroy_order (B : Build) (E : Env) (w : World) :
    ((newActions w (osm_opensm_destroy B E w)).map Action.routine).head? = some none ∧
    ((newActions w (osm_opensm_destroy B E w)).map Action.routine).count none = 1 ∧
    (osm_opensm_destroy B E w).osm_exit_flag = true ∧
    (∀ r ∈ [Routine.osm_sa_shutdown, Routine.osm_sm_shutdown, Routine.osm_vl15_shutdown],
      ((newActions w (osm_opensm_destroy B E w)).map Action.routine).indexOf (some r) <
        ((newActions w (osm_opensm_destroy B E w)).map Action.routine).indexOf
          (some Routine.cl_disp_shutdown)) ∧
    (∀ d ∈ destroyRoutines,
      some d ∈ (newActions w (osm_opensm_destroy B E w)).map Action.routine →
      ((newActions w (osm_opensm_destroy B E w)).map Action.routine).indexOf
          (some Routine.cl_disp_shutdown) <
        ((newActions w (osm_opensm_destroy B E w)).map Action.routine).indexOf (some d)) ∧
    ((newActions w (osm_opensm_destroy B E w)).map Action.routine).getLast? =
      some (some Routine.osm_log_destroy) ∧
    (∀ r ∈ [Routine.osm_sa_shutdown, Routine.osm_sm_shutdown, Routine.osm_vl15_shutdown,
        Routine.cl_disp_shutdown, Routine.osm_sa_destroy, Routine.osm_sm_destroy,
        Routine.osm_db_destroy, Routine.osm_vl15_destroy, Routine.osm_mad_pool_destroy,
        Routine.osm_vendor_delete, Routine.osm_subn_destroy, Routine.cl_disp_destroy,
        Routine.close_node_name_map, Routine.cl_plock_destroy, Routine.osm_log_destroy],
      ((newActions w (osm_opensm_destroy B E w)).map Action.routine).count (some r) = 1) ∧
    (∀ r ∈ [Routine.osm_perfmgr_shutdown, Routine.osm_perfmgr_destroy],
      ((newActions w (osm_opensm_destroy B E w)).map Action.routine).count (some r) =
        if B.ENABLE_OSM_PERF_MGR then 1 else 0) ∧
    (∀ r ∈ [Routine.pthread_cond_destroy, Routine.pthread_mutex_destroy],
      ((newActions w (osm_opensm_destroy B E w)).map Action.routine).count (some r) =
        if B.HAVE_LIBPTHREAD then 1 else 0) ∧
    ((newActions w (osm_opensm_destroy B E w)).map Action.routine).count
        (some Routine.cl_event_destroy) = if B.HAVE_LIBPTHREAD then 0 else 1 := by
  obtain ⟨bound, deleted, hR, -⟩ := osm_opensm_destroy_spec B E w
  have hflag : (osm_opensm_destroy B E w).osm_exit_flag = true := by
    rw [osm_opensm_destroy,
      (osm_opensm_destroy_objects_spec B E (osm_opensm_destroy_shutdown B E w)).2.2.2.1]
    exact (osm_opensm_destroy_shutdown_spec B E w).2.2.1
  rw [hR]
  refine ⟨?_, ?_, hflag, ?_, ?_, ?_, ?_, ?_, ?_, ?_⟩ <;>
    rcases B with ⟨en, pt⟩ <;> cases en <;> cases pt <;> cases bound <;> cases deleted <;> decide

/-- Witness of C9: in the teardown of an instance with an engine descriptor, the
SM shutdown comes before the dispatcher shutdown. -/
theorem osm_opensm_destroy_order_witness :
    Routine.osm_sm_shutdown ∈
        [Routine.osm_sa_shutdown, Routine.osm_sm_shutdown, Routine.osm_vl15_shutdown] ∧
      ((newActions engineWorld (osm_opensm_destroy ⟨true, true⟩ quietEnv engineWorld)).map
          Action.routine).indexOf (some Routine.osm_sm_shutdown) <
        ((newActions engineWorld (osm_opensm_destroy ⟨true, true⟩ quietEnv engineWorld)).map
          Action.routine).indexOf (some Routine.cl_disp_shutdown) :=
  ⟨by decide,
    (osm_opensm_destroy_order ⟨true, true⟩ quietEnv engineWorld).2.2.2.1 Routine.osm_sm_shutdown
      (by decide)⟩

/-- C10 as stated fails: with a descriptor that has a teardown callback, and
external routines that leave the instance alone, the descriptor's name, context
and teardown callback are still set after `osm_opensm_destroy`. -/
theorem osm_opensm_destroy_keeps_descriptor :
    PreservesRoutingEngine quietEnv ∧
    engineWorld.osm.routing_engine.delete = some 9 ∧
    (osm_opensm_destroy ⟨true, true⟩ quietEnv engineWorld).osm.routing_engine.name =
      some (lit "updn") ∧
    (osm_opensm_destroy ⟨true, true⟩ quietEnv engineWorld).osm.routing_engine.context = some 5 ∧
    (osm_opensm_destroy ⟨true, true⟩ quietEnv engineWorld).osm.routing_engine.delete = some 9 ∧
    (osm_opensm_destroy ⟨true, true⟩ quietEnv engineWorld).osm.routing_engine ≠
      { name := none, context := none, delete := none } := by
  refine ⟨fun _ _ => rfl, ?_, ?_, ?_, ?_, ?_⟩ <;> decide

/-- C10, amended: when no external routine changes the descriptor, and the
descriptor has a teardown callback, `osm_opensm_destroy` invokes that callback
exactly once, passing the descriptor's context, before SA and SM are destroyed;
when the descriptor has no teardown callback, no engine callback is invoked;
and `osm_opensm_destroy` leaves the descriptor's name, context and teardown
callback as they were. -/
theorem osm_opensm_destroy_engine_teardown (B : Build) (E : Env) (w : World)
    (hframe : PreservesRoutingEngine E) :
    (∀ f, w.osm.routing_engine.delete = some f →
      Action.call ⟨Routine.routing_engine_delete,
          [Arg.ptr (some f), Arg.ptr w.osm.routing_engine.context]⟩ ∈
        newActions w (osm_opensm_destroy B E w) ∧
      ((newActions w (osm_opensm_destroy B E w)).map Action.routine).count
        (some Routine.routing_engine_delete) = 1 ∧
      ((newActions w (osm_opensm_destroy B E w)).map Action.routine).indexOf
          (some Routine.routing_engine_delete) <
        ((newActions w (osm_opensm_destroy B E w)).map Action.routine).indexOf
          (some Routine.osm_sa_destroy) ∧
      ((newActions w (osm_opensm_destroy B E w)).map Action.routine).indexOf
          (some Routine.routing_engine_delete) <
        ((newActions w (osm_opensm_destroy B E w)).map Action.routine).indexOf
          (some Routine.osm_sm_destroy)) ∧
    (w.osm.routing_engine.delete = none →
      ((newActions w (osm_opensm_destroy B E w)).map Action.routine).count
        (some Routine.routing_engine_delete) = 0) ∧
    (osm_opensm_destroy B E w).osm.routing_engine = w.osm.routing_engine := by
  obtain ⟨bound, deleted, hR, hdel⟩ := osm_opensm_destroy_spec B E w
  obtain ⟨hp1, -, -, hf1⟩ := osm_opensm_destroy_shutdown_spec B E w
  obtain ⟨hp2, -, hmem, -, hf2⟩ :=
    osm_opensm_destroy_objects_spec B E (osm_opensm_destroy_shutdown B E w)
  have hdel2 := hdel hframe
  rw [hR]
  refine ⟨?_, ?_, ?_⟩
  · intro f hf
    rw [hf, Option.isSome_some] at hdel2
    refine ⟨?_, ?_, ?_, ?_⟩
    · rw [osm_opensm_destroy, newActions_trans hp1 hp2]
      have := hmem f (by rw [hf1 hframe]; exact hf)
      rw [hf1 hframe] at this
      exact List.mem_append_right _ this
    all_goals
      subst hdel2
      rcases B with ⟨en, pt⟩
      cases en <;> cases pt <;> cases bound <;> decide
  · intro hn
    rw [hn, Option.isSome_none] at hdel2
    subst hdel2
    rcases B with ⟨en, pt⟩
    cases en <;> cases pt <;> cases bound <;> decide
  · rw [osm_opensm_destroy, hf2 hframe, hf1 hframe]

/-- Witness of C10, amended: the quiet environment and an instance with a
descriptor that has a teardown callback. -/
theorem osm_opensm_destroy_engine_teardown_witness :
    PreservesRoutingEngine quietEnv ∧
    (osm_opensm_destroy ⟨true, true⟩ quietEnv engineWorld).osm.routing_engine =
      engineWorld.osm.routing_engine :=
  ⟨fun _ _ => rfl,
    (osm_opensm_destroy_engine_teardown ⟨true, true⟩ quietEnv engineWorld (fun _ _ => rfl)).2.2⟩

end OpenSM
